import Mathlib

/-!
# Browser runtime: HTTP handlers over the browser session

A shallow embedding of `agent/internal/runtime/browser/runtime.go`,
`agent/internal/runtime/browser/handlers.go` and the configuration and devtools
parts of `agent/internal/runtime/app/app.go`.

* Go `int64` and `time.Duration` values are integers; the one arithmetic
  operation of the handlers that can overflow (`time.Duration(ms) * time.Millisecond`)
  wraps explicitly through `wrapInt64`.
* Go strings are Lean strings.  Every string a handler inspects comes out of
  `encoding/json`, which only produces valid UTF-8.
* The browser controller (`*Browser`, the field `Runtime.real`) is declared in
  another file of the package.  Its methods are the fields of `Browser σ`: each
  takes the arguments of the call and the session state and returns the Go
  results and the next session state.  A handler returns the HTTP response it
  wrote, the session calls it made in order and the session state it left.
-/

namespace BrowserPlugin

/-! ## Go primitives -/

/-- Two's complement wrap of a mathematical integer into the `int64` range. -/
def wrapInt64 (x : Int) : Int :=
  (x + 9223372036854775808) % 18446744073709551616 - 9223372036854775808

/-- The largest `int64`. -/
def maxInt64 : Int := 9223372036854775807

/-- The smallest `int64`. -/
def minInt64 : Int := -9223372036854775808

/-- Go `time.Millisecond`, in nanoseconds. -/
def Millisecond : Int := 1000000

/-- A Go `error` value: the text of `Error()` and whether it is a timeout
(a deadline that passed).  The handlers only ever read the text. -/
structure GoError where
  msg : String
  isTimeout : Bool
  deriving DecidableEq, Repr

/-- Go `errors.New`. -/
def errorsNew (text : String) : GoError := ⟨text, false⟩

/-- An IEEE-754 double, kept as its bit pattern; the handlers pass doubles on
without computing with them. -/
structure Float64 where
  bits : Nat
  deriving DecidableEq, Repr

/-- Go `unicode.IsSpace`: the Latin-1 white space and the code points of
property White_Space. -/
def isSpace (c : Char) : Bool :=
  let n := c.toNat
  (9 ≤ n && n ≤ 13) || n == 32 || n == 133 || n == 160 || n == 5760 ||
  (8192 ≤ n && n ≤ 8202) || n == 8232 || n == 8233 || n == 8239 || n == 8287 ||
  n == 12288

/-- Go `strings.TrimSpace`: the string without its leading and trailing white space. -/
def TrimSpace (s : String) : String :=
  ⟨((s.data.dropWhile isSpace).reverse.dropWhile isSpace).reverse⟩

/-- The upper-case and title-case code points with their simple lower-case
mapping in the Unicode Character Database (version 14.0.0), the table behind Go
`unicode.ToLower`: each entry `(lo, hi, stride, lower)` maps the code points
`lo`, `lo + stride`, ... up to `hi`, the first of them to `lower` and the others
at the same distance. -/
def lowerRanges : List (Nat × Nat × Nat × Nat) :=
  [(65, 90, 1, 97), (192, 214, 1, 224), (216, 222, 1, 248), (256, 302, 2, 257),
   (304, 304, 1, 105), (306, 310, 2, 307), (313, 327, 2, 314), (330, 374, 2, 331),
   (376, 376, 1, 255), (377, 381, 2, 378), (385, 385, 1, 595), (386, 388, 2, 387),
   (390, 390, 1, 596), (391, 391, 1, 392), (393, 394, 1, 598), (395, 395, 1, 396),
   (398, 398, 1, 477), (399, 399, 1, 601), (400, 400, 1, 603), (401, 401, 1, 402),
   (403, 403, 1, 608), (404, 404, 1, 611), (406, 406, 1, 617), (407, 407, 1, 616),
   (408, 408, 1, 409), (412, 412, 1, 623), (413, 413, 1, 626), (415, 415, 1, 629),
   (416, 420, 2, 417), (422, 422, 1, 640), (423, 423, 1, 424), (425, 425, 1, 643),
   (428, 428, 1, 429), (430, 430, 1, 648), (431, 431, 1, 432), (433, 434, 1, 650),
   (435, 437, 2, 436), (439, 439, 1, 658), (440, 440, 1, 441), (444, 444, 1, 445),
   (452, 452, 1, 454), (453, 453, 1, 454), (455, 455, 1, 457), (456, 456, 1, 457),
   (458, 458, 1, 460), (459, 475, 2, 460), (478, 494, 2, 479), (497, 497, 1, 499),
   (498, 500, 2, 499), (502, 502, 1, 405), (503, 503, 1, 447), (504, 542, 2, 505),
   (544, 544, 1, 414), (546, 562, 2, 547), (570, 570, 1, 11365), (571, 571, 1, 572),
   (573, 573, 1, 410), (574, 574, 1, 11366), (577, 577, 1, 578), (579, 579, 1, 384),
   (580, 580, 1, 649), (581, 581, 1, 652), (582, 590, 2, 583), (880, 882, 2, 881),
   (886, 886, 1, 887), (895, 895, 1, 1011), (902, 902, 1, 940), (904, 906, 1, 941),
   (908, 908, 1, 972), (910, 911, 1, 973), (913, 929, 1, 945), (931, 939, 1, 963),
   (975, 975, 1, 983), (984, 1006, 2, 985), (1012, 1012, 1, 952), (1015, 1015, 1, 1016),
   (1017, 1017, 1, 1010), (1018, 1018, 1, 1019), (1021, 1023, 1, 891), (1024, 1039, 1, 1104),
   (1040, 1071, 1, 1072), (1120, 1152, 2, 1121), (1162, 1214, 2, 1163), (1216, 1216, 1, 1231),
   (1217, 1229, 2, 1218), (1232, 1326, 2, 1233), (1329, 1366, 1, 1377), (4256, 4293, 1, 11520),
   (4295, 4295, 1, 11559), (4301, 4301, 1, 11565), (5024, 5103, 1, 43888), (5104, 5109, 1, 5112),
   (7312, 7354, 1, 4304), (7357, 7359, 1, 4349), (7680, 7828, 2, 7681), (7838, 7838, 1, 223),
   (7840, 7934, 2, 7841), (7944, 7951, 1, 7936), (7960, 7965, 1, 7952), (7976, 7983, 1, 7968),
   (7992, 7999, 1, 7984), (8008, 8013, 1, 8000), (8025, 8031, 2, 8017), (8040, 8047, 1, 8032),
   (8072, 8079, 1, 8064), (8088, 8095, 1, 8080), (8104, 8111, 1, 8096), (8120, 8121, 1, 8112),
   (8122, 8123, 1, 8048), (8124, 8124, 1, 8115), (8136, 8139, 1, 8050), (8140, 8140, 1, 8131),
   (8152, 8153, 1, 8144), (8154, 8155, 1, 8054), (8168, 8169, 1, 8160), (8170, 8171, 1, 8058),
   (8172, 8172, 1, 8165), (8184, 8185, 1, 8056), (8186, 8187, 1, 8060), (8188, 8188, 1, 8179),
   (8486, 8486, 1, 969), (8490, 8490, 1, 107), (8491, 8491, 1, 229), (8498, 8498, 1, 8526),
   (8544, 8559, 1, 8560), (8579, 8579, 1, 8580), (9398, 9423, 1, 9424), (11264, 11311, 1, 11312),
   (11360, 11360, 1, 11361), (11362, 11362, 1, 619), (11363, 11363, 1, 7549),
   (11364, 11364, 1, 637), (11367, 11371, 2, 11368), (11373, 11373, 1, 593),
   (11374, 11374, 1, 625), (11375, 11375, 1, 592), (11376, 11376, 1, 594),
   (11378, 11378, 1, 11379), (11381, 11381, 1, 11382), (11390, 11391, 1, 575),
   (11392, 11490, 2, 11393), (11499, 11501, 2, 11500), (11506, 11506, 1, 11507),
   (42560, 42604, 2, 42561), (42624, 42650, 2, 42625), (42786, 42798, 2, 42787),
   (42802, 42862, 2, 42803), (42873, 42875, 2, 42874), (42877, 42877, 1, 7545),
   (42878, 42886, 2, 42879), (42891, 42891, 1, 42892), (42893, 42893, 1, 613),
   (42896, 42898, 2, 42897), (42902, 42920, 2, 42903), (42922, 42922, 1, 614),
   (42923, 42923, 1, 604), (42924, 42924, 1, 609), (42925, 42925, 1, 620),
   (42926, 42926, 1, 618), (42928, 42928, 1, 670), (42929, 42929, 1, 647),
   (42930, 42930, 1, 669), (42931, 42931, 1, 43859), (42932, 42946, 2, 42933),
   (42948, 42948, 1, 42900), (42949, 42949, 1, 642), (42950, 42950, 1, 7566),
   (42951, 42953, 2, 42952), (42960, 42960, 1, 42961), (42966, 42968, 2, 42967),
   (42997, 42997, 1, 42998), (65313, 65338, 1, 65345), (66560, 66599, 1, 66600),
   (66736, 66771, 1, 66776), (66928, 66938, 1, 66967), (66940, 66954, 1, 66979),
   (66956, 66962, 1, 66995), (66964, 66965, 1, 67003), (68736, 68786, 1, 68800),
   (71840, 71871, 1, 71872), (93760, 93791, 1, 93792), (125184, 125217, 1, 125218)]

/-- Go `unicode.ToLower`: the lower-case mapping of a code point in the table,
the code point itself otherwise. -/
def toLowerRune (c : Char) : Char :=
  match lowerRanges.find? (fun run =>
    run.1 ≤ c.toNat && c.toNat ≤ run.2.1 && (c.toNat - run.1) % run.2.2.1 == 0) with
  | some run => Char.ofNat (c.toNat - run.1 + run.2.2.2)
  | none => c

/-- Go `strings.ToLower`. -/
def ToLower (s : String) : String := ⟨s.data.map toLowerRune⟩

/-- Go `[]byte` elements. -/
abbrev Byte := Fin 256

/-- Go `byte(x)` on a non-negative value: the low eight bits. -/
def byteOf (n : Nat) : Byte := ⟨n % 256, Nat.mod_lt n (by decide)⟩

/-! ### `strconv.ParseInt(value, 10, 64)` -/

/-- The value of a decimal digit, `none` for any other character. -/
def digitValue (c : Char) : Option Nat :=
  if 48 ≤ c.toNat ∧ c.toNat ≤ 57 then some (c.toNat - 48) else none

/-- The number written by a run of decimal digits, continuing from `acc`. -/
def parseDigits : List Char → Nat → Option Nat
  | [], acc => some acc
  | c :: cs, acc =>
    match digitValue c with
    | some d => parseDigits cs (acc * 10 + d)
    | none => none

/-- Go `strconv.ParseInt(s, 10, 64)`; `none` stands for a non-nil error (bad
syntax, or a value out of the `int64` range). -/
def ParseInt (s : String) : Option Int :=
  let signed : Bool × List Char :=
    match s.data with
    | [] => (false, [])
    | c :: ds => if c = '+' then (false, ds) else if c = '-' then (true, ds) else (false, c :: ds)
  if signed.2 = [] then none
  else
    match parseDigits signed.2 0 with
    | none => none
    | some n =>
      let v : Int := if signed.1 then -(n : Int) else (n : Int)
      if minInt64 ≤ v ∧ v ≤ maxInt64 then some v else none

/-! ### `encoding/base64`, `StdEncoding` -/

/-- The alphabet of `base64.StdEncoding`. -/
def encodeStd : List Char :=
  "ABCDEFGHIJKLMNOPQRSTUVWXYZabcdefghijklmnopqrstuvwxyz0123456789+/".data

/-- The character for a six-bit value: `enc.encode[v & 0x3F]`. -/
def encodeChar (v : Nat) : Char := encodeStd.getD (v % 64) 'A'

/-- The encoder's loop: three bytes make four characters; a last group of one
or two bytes is padded with `=`. -/
def encodeQuanta : List Byte → List Char
  | a :: b :: c :: rest =>
    let val := a.val * 65536 + b.val * 256 + c.val
    encodeChar (val / 262144) :: encodeChar (val / 4096) :: encodeChar (val / 64) ::
      encodeChar val :: encodeQuanta rest
  | [a, b] =>
    let val := a.val * 65536 + b.val * 256
    [encodeChar (val / 262144), encodeChar (val / 4096), encodeChar (val / 64), '=']
  | [a] =>
    let val := a.val * 65536
    [encodeChar (val / 262144), encodeChar (val / 4096), '=', '=']
  | [] => []

/-- Go `base64.StdEncoding.EncodeToString`. -/
def EncodeToString (src : List Byte) : String := ⟨encodeQuanta src⟩

/-- The decoder's table: the six-bit value of an alphabet character. -/
def decodeChar (c : Char) : Option Nat :=
  let i := encodeStd.indexOf c
  if i < 64 then some i else none

/-- Go `base64.CorruptInputError`. -/
def corruptInput : GoError := ⟨"illegal base64 data", false⟩

/-- The decoder's loop over the input without its line breaks: four characters
make three bytes; the last group may end in `=` or `==`. -/
def decodeQuanta : List Char → Except GoError (List Byte)
  | [] => .ok []
  | c0 :: c1 :: c2 :: c3 :: rest =>
    if rest = [] ∧ c3 = '=' then
      if c2 = '=' then
        match decodeChar c0, decodeChar c1 with
        | some s0, some s1 =>
          let val := s0 * 262144 + s1 * 4096
          .ok [byteOf (val / 65536)]
        | _, _ => .error corruptInput
      else
        match decodeChar c0, decodeChar c1, decodeChar c2 with
        | some s0, some s1, some s2 =>
          let val := s0 * 262144 + s1 * 4096 + s2 * 64
          .ok [byteOf (val / 65536), byteOf (val / 256)]
        | _, _, _ => .error corruptInput
    else
      match decodeChar c0, decodeChar c1, decodeChar c2, decodeChar c3 with
      | some s0, some s1, some s2, some s3 =>
        let val := s0 * 262144 + s1 * 4096 + s2 * 64 + s3
        match decodeQuanta rest with
        | .ok tail => .ok (byteOf (val / 65536) :: byteOf (val / 256) :: byteOf val :: tail)
        | .error err => .error err
      | _, _, _, _ => .error corruptInput
  | _ => .error corruptInput

/-- Go `base64.StdEncoding.DecodeString`: carriage returns and line feeds are
skipped, the rest is decoded group by group. -/
def DecodeString (s : String) : Except GoError (List Byte) :=
  decodeQuanta (s.data.filter (fun c => !(c == '\r' || c == '\n')))

/-! ## Data: `cdproto/network` and the request payloads of handlers.go -/

/-- Go `cdp.TimeSinceEpoch` built by `time.Unix(sec, 0).UTC()`. -/
structure TimeSinceEpoch where
  unixSeconds : Int
  deriving DecidableEq, Repr

/-- `network.CookieSameSiteStrict`. -/
def CookieSameSiteStrict : String := "Strict"

/-- `network.CookieSameSiteLax`. -/
def CookieSameSiteLax : String := "Lax"

/-- `network.CookieSameSiteNone`. -/
def CookieSameSiteNone : String := "None"

/-- `network.CookieParam`, the fields `convertCookieParam` sets; the others keep
their zero value.  `SameSite` is the string type `network.CookieSameSite`, empty
when unset; `Expires` is a pointer, `none` when nil. -/
structure CookieParam where
  Name : String
  Value : String
  Domain : String
  Path : String
  HTTPOnly : Bool
  Secure : Bool
  SameSite : String
  Expires : Option TimeSinceEpoch
  deriving DecidableEq, Repr

/-- `network.Cookie`, the fields `mapCookies` reads. -/
structure Cookie where
  Name : String
  Value : String
  Domain : String
  Path : String
  Expires : Float64
  HTTPOnly : Bool
  Secure : Bool
  SameSite : String
  deriving DecidableEq, Repr

/-- `StoragePayload`: the two storage maps, as lists of key and value. -/
structure StoragePayload where
  Local : List (String × String)
  Session : List (String × String)
  deriving DecidableEq, Repr

structure navigateRequest where
  URL : String
  TimeoutMs : Int
  deriving DecidableEq, Repr

structure reloadRequest where
  IgnoreCache : Bool
  TimeoutMs : Int
  deriving DecidableEq, Repr

structure viewportRequest where
  Width : Int
  Height : Int
  Scale : Float64
  Mobile : Bool
  TimeoutMs : Int
  deriving DecidableEq, Repr

structure userAgentRequest where
  UserAgent : String
  AcceptLanguage : String
  Platform : String
  TimeoutMs : Int
  deriving DecidableEq, Repr

structure waitNavigationRequest where
  TimeoutMs : Int
  deriving DecidableEq, Repr

structure screenshotRequest where
  FullPage : Bool
  Format : String
  Quality : Int
  TimeoutMs : Int
  deriving DecidableEq, Repr

structure clickRequest where
  Selector : String
  Button : String
  TimeoutMs : Int
  deriving DecidableEq, Repr

structure typeRequest where
  Selector : String
  Value : String
  Clear : Bool
  TimeoutMs : Int
  deriving DecidableEq, Repr

structure textRequest where
  Selector : String
  Visible : Bool
  TimeoutMs : Int
  deriving DecidableEq, Repr

structure htmlRequest where
  Selector : String
  TimeoutMs : Int
  deriving DecidableEq, Repr

structure attributeRequest where
  Selector : String
  Name : String
  TimeoutMs : Int
  deriving DecidableEq, Repr

structure waitSelectorRequest where
  Selector : String
  Visible : Bool
  TimeoutMs : Int
  deriving DecidableEq, Repr

structure evaluateRequest where
  Expression : String
  AwaitPromise : Bool
  TimeoutMs : Int
  deriving DecidableEq, Repr

structure cookieParamRequest where
  Name : String
  Value : String
  Domain : String
  Path : String
  Expires : Option Float64
  HTTPOnly : Bool
  Secure : Bool
  SameSite : String
  deriving DecidableEq, Repr

structure profileAttachRequest where
  Cookies : List cookieParamRequest
  Local : List (String × String)
  Session : List (String × String)
  Timeout : Int
  deriving DecidableEq, Repr

/-- What `decodeRequest(req, &payload)` leaves behind: the payload variable
after `Decode` ran on it (fields read before a failure stay set, the others are
zero) and the error it returned. -/
structure Decoded (α : Type) where
  dest : α
  err : Option GoError
  deriving DecidableEq, Repr

/-! ## Responses -/

/-- A value of a cookie item of `mapCookies`. -/
inductive Scalar where
  | str (s : String)
  | bool (b : Bool)
  | float (f : Float64)
  deriving DecidableEq, Repr

/-- A value of the `map[string]any` a handler responds with.  `json` is a
value the session hands back as is (the result of `Evaluate`), kept as its
JSON text. -/
inductive Any where
  | str (s : String)
  | bool (b : Bool)
  | int (n : Int)
  | json (raw : String)
  | strMap (m : List (String × String))
  | items (l : List (List (String × Scalar)))
  deriving DecidableEq, Repr

/-- What `respondJSON` writes: the status and the encoded object, its keys in
the order of the map literal. -/
structure Response where
  status : Nat
  payload : List (String × Any)
  deriving DecidableEq, Repr

def StatusOK : Nat := 200

def StatusBadRequest : Nat := 400

def StatusInternalServerError : Nat := 500

/-- `respondJSON`. -/
def respondJSON (status : Nat) (payload : List (String × Any)) : Response :=
  ⟨status, payload⟩

/-- `errorJSON`. -/
def errorJSON (status : Nat) (err : GoError) : Response :=
  respondJSON status [("error", Any.str err.msg)]

/-- `okJSON`. -/
def okJSON : Response :=
  respondJSON StatusOK [("status", Any.str "ok")]

/-! ## The session -/

/-- A call of a method of the browser controller, with its arguments. The
method `Type` is written `TypeText`. -/
inductive Call where
  | Navigate (timeout : Int) (url : String)
  | Reload (timeout : Int) (ignoreCache : Bool)
  | Back (timeout : Int)
  | Forward (timeout : Int)
  | SetViewport (timeout : Int) (width height : Int) (scale : Float64) (mobile : Bool)
  | SetUserAgent (timeout : Int) (userAgent acceptLanguage platform : String)
  | WaitForNavigation (timeout : Int)
  | Screenshot (timeout : Int) (fullPage : Bool) (format : String) (quality : Int)
  | Click (timeout : Int) (selector button : String)
  | TypeText (timeout : Int) (selector value : String) (clear : Bool)
  | GetText (timeout : Int) (selector : String) (visible : Bool)
  | GetHTML (timeout : Int) (selector : String)
  | GetAttribute (timeout : Int) (selector name : String)
  | WaitForSelector (timeout : Int) (selector : String) (visible : Bool)
  | Evaluate (timeout : Int) (expression : String) (awaitPromise : Bool)
  | SetCookies (timeout : Int) (cookies : List CookieParam)
  | SetStorage (timeout : Int) (payload : StoragePayload)
  | GetCookies (timeout : Int)
  | GetStorage (timeout : Int)
  deriving DecidableEq, Repr

/-- The timeout a session call was made with. -/
def Call.timeout : Call → Int
  | .Navigate t _ | .Reload t _ | .Back t | .Forward t | .SetViewport t _ _ _ _
  | .SetUserAgent t _ _ _ | .WaitForNavigation t | .Screenshot t _ _ _ | .Click t _ _
  | .TypeText t _ _ _ | .GetText t _ _ | .GetHTML t _ | .GetAttribute t _ _
  | .WaitForSelector t _ _ | .Evaluate t _ _ | .SetCookies t _ | .SetStorage t _
  | .GetCookies t | .GetStorage t => t

/-- A session call a handler made and the error it came back with. -/
structure Invocation where
  call : Call
  err : Option GoError
  deriving DecidableEq, Repr

/-- `DevToolsInfo`, the endpoint descriptor of the browser controller, as the
object `encoding/json` makes of it. -/
structure DevToolsInfo where
  fields : List (String × Any)
  deriving DecidableEq, Repr

/-- The browser controller behind `Runtime.real`, over a session state `σ`.
Each field is one method called by the handlers, with the arguments in the
order of the Go call (the timeout first); a method with results besides the
error returns them when the error is nil. -/
structure Browser (σ : Type) where
  Navigate : Int → String → σ → Option GoError × σ
  Reload : Int → Bool → σ → Option GoError × σ
  Back : Int → σ → Option GoError × σ
  Forward : Int → σ → Option GoError × σ
  SetViewport : Int → Int → Int → Float64 → Bool → σ → Option GoError × σ
  SetUserAgent : Int → String → String → String → σ → Option GoError × σ
  WaitForNavigation : Int → σ → Option GoError × σ
  Screenshot : Int → Bool → String → Int → σ → Except GoError (List Byte) × σ
  Click : Int → String → String → σ → Option GoError × σ
  TypeText : Int → String → String → Bool → σ → Option GoError × σ
  GetText : Int → String → Bool → σ → Except GoError String × σ
  GetHTML : Int → String → σ → Except GoError String × σ
  GetAttribute : Int → String → String → σ → Except GoError (String × Bool) × σ
  WaitForSelector : Int → String → Bool → σ → Option GoError × σ
  Evaluate : Int → String → Bool → σ → Except GoError String × σ
  SetCookies : Int → List CookieParam → σ → Option GoError × σ
  SetStorage : Int → StoragePayload → σ → Option GoError × σ
  GetCookies : Int → σ → Except GoError (List Cookie) × σ
  GetStorage : Int → σ → Except GoError StoragePayload × σ
  DevToolsInfo : σ → DevToolsInfo

/-- What running a handler comes to: the response written, the session calls
made, in order, and the session state afterwards. -/
structure Outcome (σ : Type) where
  response : Response
  calls : List Invocation
  state : σ

/-! ## runtime.go -/

/-- `Runtime`: the handlers' receiver.  The manifest plays no part in the handlers. -/
structure Runtime (σ : Type) where
  real : Browser σ
  defaultTimeout : Int

/-- `Runtime.duration`.  `DefaultActionTimeout` is a constant of the package,
declared with the browser controller. -/
def Runtime.duration {σ : Type} (DefaultActionTimeout : Int) (r : Runtime σ) (ms : Int) : Int :=
  if ms ≤ 0 then
    if r.defaultTimeout > 0 then r.defaultTimeout
    else DefaultActionTimeout
  else wrapInt64 (ms * Millisecond)

/-- `Runtime.DevToolsInfo`: the controller's descriptor and the flag the caller
tests. -/
def Runtime.DevToolsInfo {σ : Type} (r : Runtime σ) (s : σ) : DevToolsInfo × Bool :=
  (r.real.DevToolsInfo s, true)

/-! ## handlers.go -/

/-- `queryTimeout`; `value` is `r.URL.Query().Get("timeout_ms")`, the empty
string when the parameter is absent. -/
def queryTimeout (value : String) : Int :=
  if value ≠ "" then
    match ParseInt value with
    | some ms => if ms > 0 then ms else 0
    | none => 0
  else 0

/-- `convertCookieParam`.  `int64OfFloat64` is Go's conversion `int64(f)` of a
double. -/
def convertCookieParam (int64OfFloat64 : Float64 → Int) (req : cookieParamRequest) :
    Except GoError CookieParam :=
  if TrimSpace req.Name = "" then .error (errorsNew "cookie name required")
  else
    let cookie : CookieParam :=
      { Name := req.Name, Value := req.Value, Domain := req.Domain, Path := req.Path,
        HTTPOnly := req.HTTPOnly, Secure := req.Secure, SameSite := "", Expires := none }
    let withSameSite : Except GoError CookieParam :=
      if req.SameSite ≠ "" then
        if ToLower req.SameSite = "lax" then .ok { cookie with SameSite := CookieSameSiteLax }
        else if ToLower req.SameSite = "strict" then
          .ok { cookie with SameSite := CookieSameSiteStrict }
        else if ToLower req.SameSite = "none" then
          .ok { cookie with SameSite := CookieSameSiteNone }
        else .error (errorsNew "invalid same_site")
      else .ok cookie
    match withSameSite with
    | .error err => .error err
    | .ok cookie =>
      match req.Expires with
      | some f => .ok { cookie with Expires := some ⟨int64OfFloat64 f⟩ }
      | none => .ok cookie

/-- One item of `mapCookies`. -/
def mapCookie (c : Cookie) : List (String × Scalar) :=
  [("name", .str c.Name), ("value", .str c.Value), ("domain", .str c.Domain),
   ("path", .str c.Path), ("http_only", .bool c.HTTPOnly), ("secure", .bool c.Secure),
   ("same_site", .str (ToLower c.SameSite)), ("expires", .float c.Expires)]

/-- `mapCookies`: the loop appends one item per cookie. -/
def mapCookies : List Cookie → List (List (String × Scalar))
  | [] => []
  | c :: cookies => mapCookie c :: mapCookies cookies

/-- The loop of the `/attach` handler over `payload.Cookies`: it stops at the
first cookie `convertCookieParam` rejects and appends the others to `cookies`. -/
def convertCookies (int64OfFloat64 : Float64 → Int) :
    List cookieParamRequest → List CookieParam → Except GoError (List CookieParam)
  | [], cookies => .ok cookies
  | c :: rest, cookies =>
    match convertCookieParam int64OfFloat64 c with
    | .error err => .error err
    | .ok cookie => convertCookies int64OfFloat64 rest (cookies ++ [cookie])

section Handlers

variable {σ : Type} (DefaultActionTimeout : Int)

/-- `POST /browser/navigate`. -/
def handleNavigate (r : Runtime σ) (dec : Decoded navigateRequest) (s : σ) : Outcome σ :=
  match dec.err with
  | some err => ⟨errorJSON StatusBadRequest err, [], s⟩
  | none =>
    let payload := dec.dest
    if TrimSpace payload.URL = "" then
      ⟨errorJSON StatusBadRequest (errorsNew "url is required"), [], s⟩
    else
      let timeout := r.duration DefaultActionTimeout payload.TimeoutMs
      match r.real.Navigate timeout payload.URL s with
      | (some err, s1) =>
        ⟨errorJSON StatusInternalServerError err, [⟨.Navigate timeout payload.URL, some err⟩], s1⟩
      | (none, s1) => ⟨okJSON, [⟨.Navigate timeout payload.URL, none⟩], s1⟩

/-- `POST /browser/reload`: the error of `decodeRequest` is dropped. -/
def handleReload (r : Runtime σ) (dec : Decoded reloadRequest) (s : σ) : Outcome σ :=
  let payload := dec.dest
  let timeout := r.duration DefaultActionTimeout payload.TimeoutMs
  match r.real.Reload timeout payload.IgnoreCache s with
  | (some err, s1) =>
    ⟨errorJSON StatusInternalServerError err, [⟨.Reload timeout payload.IgnoreCache, some err⟩], s1⟩
  | (none, s1) => ⟨okJSON, [⟨.Reload timeout payload.IgnoreCache, none⟩], s1⟩

/-- `POST /browser/back`. -/
def handleBack (r : Runtime σ) (timeoutMs : String) (s : σ) : Outcome σ :=
  let timeout := r.duration DefaultActionTimeout (queryTimeout timeoutMs)
  match r.real.Back timeout s with
  | (some err, s1) => ⟨errorJSON StatusInternalServerError err, [⟨.Back timeout, some err⟩], s1⟩
  | (none, s1) => ⟨okJSON, [⟨.Back timeout, none⟩], s1⟩

/-- `POST /browser/forward`. -/
def handleForward (r : Runtime σ) (timeoutMs : String) (s : σ) : Outcome σ :=
  let timeout := r.duration DefaultActionTimeout (queryTimeout timeoutMs)
  match r.real.Forward timeout s with
  | (some err, s1) => ⟨errorJSON StatusInternalServerError err, [⟨.Forward timeout, some err⟩], s1⟩
  | (none, s1) => ⟨okJSON, [⟨.Forward timeout, none⟩], s1⟩

/-- `POST /browser/viewport`. -/
def handleViewport (r : Runtime σ) (dec : Decoded viewportRequest) (s : σ) : Outcome σ :=
  match dec.err with
  | some err => ⟨errorJSON StatusBadRequest err, [], s⟩
  | none =>
    let payload := dec.dest
    let timeout := r.duration DefaultActionTimeout payload.TimeoutMs
    let call := Call.SetViewport timeout payload.Width payload.Height payload.Scale payload.Mobile
    match r.real.SetViewport timeout payload.Width payload.Height payload.Scale payload.Mobile s with
    | (some err, s1) => ⟨errorJSON StatusBadRequest err, [⟨call, some err⟩], s1⟩
    | (none, s1) => ⟨okJSON, [⟨call, none⟩], s1⟩

/-- `POST /browser/user-agent`. -/
def handleUserAgent (r : Runtime σ) (dec : Decoded userAgentRequest) (s : σ) : Outcome σ :=
  match dec.err with
  | some err => ⟨errorJSON StatusBadRequest err, [], s⟩
  | none =>
    let payload := dec.dest
    let timeout := r.duration DefaultActionTimeout payload.TimeoutMs
    let call := Call.SetUserAgent timeout payload.UserAgent payload.AcceptLanguage payload.Platform
    match r.real.SetUserAgent timeout payload.UserAgent payload.AcceptLanguage payload.Platform s with
    | (some err, s1) => ⟨errorJSON StatusBadRequest err, [⟨call, some err⟩], s1⟩
    | (none, s1) => ⟨okJSON, [⟨call, none⟩], s1⟩

/-- `POST /browser/wait-navigation`: the error of `decodeRequest` is dropped. -/
def handleWaitNavigation (r : Runtime σ) (dec : Decoded waitNavigationRequest) (s : σ) :
    Outcome σ :=
  let payload := dec.dest
  let timeout := r.duration DefaultActionTimeout payload.TimeoutMs
  match r.real.WaitForNavigation timeout s with
  | (some err, s1) => ⟨errorJSON StatusBadRequest err, [⟨.WaitForNavigation timeout, some err⟩], s1⟩
  | (none, s1) => ⟨okJSON, [⟨.WaitForNavigation timeout, none⟩], s1⟩

/-- `POST /browser/screenshot`: the error of `decodeRequest` is dropped.  `now`
is `time.Now().UTC().Format(time.RFC3339Nano)`. -/
def handleScreenshot (r : Runtime σ) (now : String) (dec : Decoded screenshotRequest) (s : σ) :
    Outcome σ :=
  let payload := dec.dest
  let timeout := r.duration DefaultActionTimeout payload.TimeoutMs
  let call := Call.Screenshot timeout payload.FullPage payload.Format payload.Quality
  match r.real.Screenshot timeout payload.FullPage payload.Format payload.Quality s with
  | (.error err, s1) => ⟨errorJSON StatusInternalServerError err, [⟨call, some err⟩], s1⟩
  | (.ok data, s1) =>
    ⟨respondJSON StatusOK
      [("data", .str (EncodeToString data)),
       ("format", .str (ToLower payload.Format)),
       ("full_page", .bool payload.FullPage),
       ("byte_length", .int data.length),
       ("captured_at", .str now)],
     [⟨call, none⟩], s1⟩

/-- `POST /dom/click`. -/
def handleClick (r : Runtime σ) (dec : Decoded clickRequest) (s : σ) : Outcome σ :=
  match dec.err with
  | some err => ⟨errorJSON StatusBadRequest err, [], s⟩
  | none =>
    let payload := dec.dest
    let timeout := r.duration DefaultActionTimeout payload.TimeoutMs
    let call := Call.Click timeout payload.Selector payload.Button
    match r.real.Click timeout payload.Selector payload.Button s with
    | (some err, s1) => ⟨errorJSON StatusBadRequest err, [⟨call, some err⟩], s1⟩
    | (none, s1) => ⟨okJSON, [⟨call, none⟩], s1⟩

/-- `POST /dom/type`. -/
def handleType (r : Runtime σ) (dec : Decoded typeRequest) (s : σ) : Outcome σ :=
  match dec.err with
  | some err => ⟨errorJSON StatusBadRequest err, [], s⟩
  | none =>
    let payload := dec.dest
    let timeout := r.duration DefaultActionTimeout payload.TimeoutMs
    let call := Call.TypeText timeout payload.Selector payload.Value payload.Clear
    match r.real.TypeText timeout payload.Selector payload.Value payload.Clear s with
    | (some err, s1) => ⟨errorJSON StatusBadRequest err, [⟨call, some err⟩], s1⟩
    | (none, s1) => ⟨okJSON, [⟨call, none⟩], s1⟩

/-- `POST /dom/get-text`. -/
def handleGetText (r : Runtime σ) (dec : Decoded textRequest) (s : σ) : Outcome σ :=
  match dec.err with
  | some err => ⟨errorJSON StatusBadRequest err, [], s⟩
  | none =>
    let payload := dec.dest
    let timeout := r.duration DefaultActionTimeout payload.TimeoutMs
    let call := Call.GetText timeout payload.Selector payload.Visible
    match r.real.GetText timeout payload.Selector payload.Visible s with
    | (.error err, s1) => ⟨errorJSON StatusBadRequest err, [⟨call, some err⟩], s1⟩
    | (.ok text, s1) => ⟨respondJSON StatusOK [("text", .str text)], [⟨call, none⟩], s1⟩

/-- `POST /dom/get-html`. -/
def handleGetHTML (r : Runtime σ) (dec : Decoded htmlRequest) (s : σ) : Outcome σ :=
  match dec.err with
  | some err => ⟨errorJSON StatusBadRequest err, [], s⟩
  | none =>
    let payload := dec.dest
    let timeout := r.duration DefaultActionTimeout payload.TimeoutMs
    let call := Call.GetHTML timeout payload.Selector
    match r.real.GetHTML timeout payload.Selector s with
    | (.error err, s1) => ⟨errorJSON StatusBadRequest err, [⟨call, some err⟩], s1⟩
    | (.ok html, s1) => ⟨respondJSON StatusOK [("html", .str html)], [⟨call, none⟩], s1⟩

/-- `POST /dom/get-attribute`. -/
def handleGetAttribute (r : Runtime σ) (dec : Decoded attributeRequest) (s : σ) : Outcome σ :=
  match dec.err with
  | some err => ⟨errorJSON StatusBadRequest err, [], s⟩
  | none =>
    let payload := dec.dest
    let timeout := r.duration DefaultActionTimeout payload.TimeoutMs
    let call := Call.GetAttribute timeout payload.Selector payload.Name
    match r.real.GetAttribute timeout payload.Selector payload.Name s with
    | (.error err, s1) => ⟨errorJSON StatusBadRequest err, [⟨call, some err⟩], s1⟩
    | (.ok (value, ok), s1) =>
      ⟨respondJSON StatusOK [("value", .str value), ("exists", .bool ok)], [⟨call, none⟩], s1⟩

/-- `POST /dom/wait-selector`. -/
def handleWaitSelector (r : Runtime σ) (dec : Decoded waitSelectorRequest) (s : σ) : Outcome σ :=
  match dec.err with
  | some err => ⟨errorJSON StatusBadRequest err, [], s⟩
  | none =>
    let payload := dec.dest
    let timeout := r.duration DefaultActionTimeout payload.TimeoutMs
    let call := Call.WaitForSelector timeout payload.Selector payload.Visible
    match r.real.WaitForSelector timeout payload.Selector payload.Visible s with
    | (some err, s1) => ⟨errorJSON StatusBadRequest err, [⟨call, some err⟩], s1⟩
    | (none, s1) => ⟨okJSON, [⟨call, none⟩], s1⟩

/-- `POST /script/evaluate`. -/
def handleEvaluate (r : Runtime σ) (dec : Decoded evaluateRequest) (s : σ) : Outcome σ :=
  match dec.err with
  | some err => ⟨errorJSON StatusBadRequest err, [], s⟩
  | none =>
    let payload := dec.dest
    if TrimSpace payload.Expression = "" then
      ⟨errorJSON StatusBadRequest (errorsNew "expression is required"), [], s⟩
    else
      let timeout := r.duration DefaultActionTimeout payload.TimeoutMs
      let call := Call.Evaluate timeout payload.Expression payload.AwaitPromise
      match r.real.Evaluate timeout payload.Expression payload.AwaitPromise s with
      | (.error err, s1) => ⟨errorJSON StatusBadRequest err, [⟨call, some err⟩], s1⟩
      | (.ok result, s1) => ⟨respondJSON StatusOK [("result", .json result)], [⟨call, none⟩], s1⟩

/-- `POST /profile/attach`. -/
def handleProfileAttach (int64OfFloat64 : Float64 → Int) (r : Runtime σ)
    (dec : Decoded profileAttachRequest) (s : σ) : Outcome σ :=
  match dec.err with
  | some err => ⟨errorJSON StatusBadRequest err, [], s⟩
  | none =>
    let payload := dec.dest
    match convertCookies int64OfFloat64 payload.Cookies [] with
    | .error err => ⟨errorJSON StatusBadRequest err, [], s⟩
    | .ok cookies =>
      let timeout := r.duration DefaultActionTimeout payload.Timeout
      let afterCookies : Except (Outcome σ) (List Invocation × σ) :=
        if cookies.length > 0 then
          match r.real.SetCookies timeout cookies s with
          | (some err, s1) =>
            .error ⟨errorJSON StatusBadRequest err, [⟨.SetCookies timeout cookies, some err⟩], s1⟩
          | (none, s1) => .ok ([⟨.SetCookies timeout cookies, none⟩], s1)
        else .ok ([], s)
      match afterCookies with
      | .error out => out
      | .ok (calls, s1) =>
        if payload.Local.length > 0 ∨ payload.Session.length > 0 then
          let storagePayload : StoragePayload := { Local := payload.Local, Session := payload.Session }
          match r.real.SetStorage timeout storagePayload s1 with
          | (some err, s2) =>
            ⟨errorJSON StatusBadRequest err,
              calls ++ [⟨.SetStorage timeout storagePayload, some err⟩], s2⟩
          | (none, s2) => ⟨okJSON, calls ++ [⟨.SetStorage timeout storagePayload, none⟩], s2⟩
        else ⟨okJSON, calls, s1⟩

/-- `GET /profile/extract`. -/
def handleProfileExtract (r : Runtime σ) (timeoutMs : String) (s : σ) : Outcome σ :=
  let timeout := r.duration DefaultActionTimeout (queryTimeout timeoutMs)
  match r.real.GetCookies timeout s with
  | (.error err, s1) => ⟨errorJSON StatusBadRequest err, [⟨.GetCookies timeout, some err⟩], s1⟩
  | (.ok cookies, s1) =>
    match r.real.GetStorage r.defaultTimeout s1 with
    | (.error err, s2) =>
      ⟨errorJSON StatusBadRequest err,
        [⟨.GetCookies timeout, none⟩, ⟨.GetStorage r.defaultTimeout, some err⟩], s2⟩
    | (.ok storage, s2) =>
      ⟨respondJSON StatusOK
        [("cookies", .items (mapCookies cookies)),
         ("local_storage", .strMap storage.Local),
         ("session_storage", .strMap storage.Session)],
       [⟨.GetCookies timeout, none⟩, ⟨.GetStorage r.defaultTimeout, none⟩], s2⟩

end Handlers

/-- The routes `Runtime.mountRoutes` registers, under `/browser`, `/dom`,
`/script` and `/profile`. -/
inductive Route where
  | navigate | reload | back | forward | viewport | userAgent | waitNavigation | screenshot
  | click | type | getText | getHTML | getAttribute | waitSelector
  | evaluate
  | profileAttach | profileExtract
  deriving DecidableEq, Repr

/-- A request as its handler reads it: the outcome of `decodeRequest` for a
route with a body, the value of the query parameter `timeout_ms` for the others. -/
inductive Request where
  | navigate (dec : Decoded navigateRequest)
  | reload (dec : Decoded reloadRequest)
  | back (timeoutMs : String)
  | forward (timeoutMs : String)
  | viewport (dec : Decoded viewportRequest)
  | userAgent (dec : Decoded userAgentRequest)
  | waitNavigation (dec : Decoded waitNavigationRequest)
  | screenshot (dec : Decoded screenshotRequest)
  | click (dec : Decoded clickRequest)
  | type (dec : Decoded typeRequest)
  | getText (dec : Decoded textRequest)
  | getHTML (dec : Decoded htmlRequest)
  | getAttribute (dec : Decoded attributeRequest)
  | waitSelector (dec : Decoded waitSelectorRequest)
  | evaluate (dec : Decoded evaluateRequest)
  | profileAttach (dec : Decoded profileAttachRequest)
  | profileExtract (timeoutMs : String)

/-- The route a request goes to. -/
def Request.route : Request → Route
  | .navigate _ => .navigate
  | .reload _ => .reload
  | .back _ => .back
  | .forward _ => .forward
  | .viewport _ => .viewport
  | .userAgent _ => .userAgent
  | .waitNavigation _ => .waitNavigation
  | .screenshot _ => .screenshot
  | .click _ => .click
  | .type _ => .type
  | .getText _ => .getText
  | .getHTML _ => .getHTML
  | .getAttribute _ => .getAttribute
  | .waitSelector _ => .waitSelector
  | .evaluate _ => .evaluate
  | .profileAttach _ => .profileAttach
  | .profileExtract _ => .profileExtract

/-- The error `decodeRequest` returned, for a route that decodes a body. -/
def Request.decodeErr : Request → Option GoError
  | .navigate dec => dec.err
  | .reload dec => dec.err
  | .viewport dec => dec.err
  | .userAgent dec => dec.err
  | .waitNavigation dec => dec.err
  | .screenshot dec => dec.err
  | .click dec => dec.err
  | .type dec => dec.err
  | .getText dec => dec.err
  | .getHTML dec => dec.err
  | .getAttribute dec => dec.err
  | .waitSelector dec => dec.err
  | .evaluate dec => dec.err
  | .profileAttach dec => dec.err
  | .back _ | .forward _ | .profileExtract _ => none

/-- The request with the error of `decodeRequest` taken away and the decoded
payload kept. -/
def Request.clearDecodeErr : Request → Request
  | .navigate dec => .navigate ⟨dec.dest, none⟩
  | .reload dec => .reload ⟨dec.dest, none⟩
  | .viewport dec => .viewport ⟨dec.dest, none⟩
  | .userAgent dec => .userAgent ⟨dec.dest, none⟩
  | .waitNavigation dec => .waitNavigation ⟨dec.dest, none⟩
  | .screenshot dec => .screenshot ⟨dec.dest, none⟩
  | .click dec => .click ⟨dec.dest, none⟩
  | .type dec => .type ⟨dec.dest, none⟩
  | .getText dec => .getText ⟨dec.dest, none⟩
  | .getHTML dec => .getHTML ⟨dec.dest, none⟩
  | .getAttribute dec => .getAttribute ⟨dec.dest, none⟩
  | .waitSelector dec => .waitSelector ⟨dec.dest, none⟩
  | .evaluate dec => .evaluate ⟨dec.dest, none⟩
  | .profileAttach dec => .profileAttach ⟨dec.dest, none⟩
  | .back q => .back q
  | .forward q => .forward q
  | .profileExtract q => .profileExtract q

/-- The router built by `Runtime.mountRoutes`: each request runs the handler
registered for its route. -/
def serve {σ : Type} (DefaultActionTimeout : Int) (int64OfFloat64 : Float64 → Int)
    (now : String) (r : Runtime σ) (req : Request) (s : σ) : Outcome σ :=
  match req with
  | .navigate dec => handleNavigate DefaultActionTimeout r dec s
  | .reload dec => handleReload DefaultActionTimeout r dec s
  | .back q => handleBack DefaultActionTimeout r q s
  | .forward q => handleForward DefaultActionTimeout r q s
  | .viewport dec => handleViewport DefaultActionTimeout r dec s
  | .userAgent dec => handleUserAgent DefaultActionTimeout r dec s
  | .waitNavigation dec => handleWaitNavigation DefaultActionTimeout r dec s
  | .screenshot dec => handleScreenshot DefaultActionTimeout r now dec s
  | .click dec => handleClick DefaultActionTimeout r dec s
  | .type dec => handleType DefaultActionTimeout r dec s
  | .getText dec => handleGetText DefaultActionTimeout r dec s
  | .getHTML dec => handleGetHTML DefaultActionTimeout r dec s
  | .getAttribute dec => handleGetAttribute DefaultActionTimeout r dec s
  | .waitSelector dec => handleWaitSelector DefaultActionTimeout r dec s
  | .evaluate dec => handleEvaluate DefaultActionTimeout r dec s
  | .profileAttach dec => handleProfileAttach DefaultActionTimeout int64OfFloat64 r dec s
  | .profileExtract q => handleProfileExtract DefaultActionTimeout r q s

/-! ## The route tables -/

/-- The handlers of `mountActionRoutes`. -/
inductive ActionRoute where
  | navigate | screenshot | scrape | evaluate | graphql
  deriving DecidableEq, Repr

/-- The handlers `App.run` registers itself. -/
inductive AppRoute where
  | health | devtools | logs
  deriving DecidableEq, Repr

/-- A handler function of the program. -/
inductive Handler where
  | runtime (route : Route)
  | action (route : ActionRoute)
  | app (route : AppRoute)
  deriving DecidableEq, Repr

/-- One registration on a chi router: method, pattern and handler. -/
structure Registration where
  method : String
  pattern : String
  handler : Handler
  deriving DecidableEq, Repr

/-- The registrations of `Runtime.mountBrowserRoutes`. -/
def mountBrowserRoutes : List Registration :=
  [⟨"POST", "/navigate", .runtime .navigate⟩,
   ⟨"POST", "/reload", .runtime .reload⟩,
   ⟨"POST", "/back", .runtime .back⟩,
   ⟨"POST", "/forward", .runtime .forward⟩,
   ⟨"POST", "/viewport", .runtime .viewport⟩,
   ⟨"POST", "/user-agent", .runtime .userAgent⟩,
   ⟨"POST", "/wait-navigation", .runtime .waitNavigation⟩,
   ⟨"POST", "/screenshot", .runtime .screenshot⟩]

/-- The registrations of `Runtime.mountDOMRoutes`. -/
def mountDOMRoutes : List Registration :=
  [⟨"POST", "/click", .runtime .click⟩,
   ⟨"POST", "/type", .runtime .type⟩,
   ⟨"POST", "/get-text", .runtime .getText⟩,
   ⟨"POST", "/get-html", .runtime .getHTML⟩,
   ⟨"POST", "/get-attribute", .runtime .getAttribute⟩,
   ⟨"POST", "/wait-selector", .runtime .waitSelector⟩]

/-- The registrations of `Runtime.mountScriptRoutes`. -/
def mountScriptRoutes : List Registration :=
  [⟨"POST", "/evaluate", .runtime .evaluate⟩]

/-- The registrations of `Runtime.mountActionRoutes`; its `/graphql` handler is
the one that requires `endpoint` and `query`. -/
def mountActionRoutes : List Registration :=
  [⟨"POST", "/navigate", .action .navigate⟩,
   ⟨"POST", "/screenshot", .action .screenshot⟩,
   ⟨"POST", "/scrape", .action .scrape⟩,
   ⟨"POST", "/evaluate", .action .evaluate⟩,
   ⟨"POST", "/graphql", .action .graphql⟩]

/-- The registrations of `Runtime.mountProfileRoutes`. -/
def mountProfileRoutes : List Registration :=
  [⟨"POST", "/attach", .runtime .profileAttach⟩,
   ⟨"GET", "/extract", .runtime .profileExtract⟩]

/-- chi `router.Route(pattern, fn)`: the registrations `fn` makes, mounted
under `pattern`. -/
def routeUnder (pattern : String) (table : List Registration) : List Registration :=
  table.map (fun reg => { reg with pattern := pattern ++ reg.pattern })

/-- `Runtime.mountRoutes`. -/
def mountRoutes : List Registration :=
  routeUnder "/browser" mountBrowserRoutes ++ routeUnder "/dom" mountDOMRoutes ++
    routeUnder "/script" mountScriptRoutes ++ routeUnder "/profile" mountProfileRoutes

/-- `Runtime.MountRoutes`. -/
def MountRoutes : List Registration := mountRoutes

/-- The router `App.run` builds: the health check, and under `/v1` the devtools
and log routes and the routes of the runtime. -/
def appRouter : List Registration :=
  ⟨"GET", "/healthz", .app .health⟩ ::
    routeUnder "/v1"
      (⟨"GET", "/devtools", .app .devtools⟩ :: ⟨"GET", "/logs/stream", .app .logs⟩ :: MountRoutes)

/-! ## app.go -/

def StatusNotFound : Nat := 404

/-- `App.handleDevTools`. -/
def handleDevTools {σ : Type} (r : Runtime σ) (s : σ) : Response :=
  let result := r.DevToolsInfo s
  if !result.2 then
    errorJSON StatusNotFound (errorsNew "runtime does not expose devtools")
  else respondJSON StatusOK result.1.fields

/-! ### `time.ParseDuration` -/

/-- Go `time.leadingInt`: the number written by the leading digits and the
rest of the input; `none` when the number passes `1 << 63`. -/
def leadingInt : List Char → Nat → Option (Nat × List Char)
  | [], x => some (x, [])
  | c :: cs, x =>
    if c.toNat < 48 ∨ c.toNat > 57 then some (x, c :: cs)
    else if x > 9223372036854775808 / 10 then none
    else if x * 10 + (c.toNat - 48) > 9223372036854775808 then none
    else leadingInt cs (x * 10 + (c.toNat - 48))

/-- Go `time.leadingFraction`: the digits after the point as a number and its
scale, a power of ten, and the rest of the input; digits past the precision of
`uint64` are skipped. -/
def leadingFraction : List Char → Nat → Nat → Bool → Nat × Nat × List Char
  | [], x, scale, _ => (x, scale, [])
  | c :: cs, x, scale, overflow =>
    if c.toNat < 48 ∨ c.toNat > 57 then (x, scale, c :: cs)
    else if overflow then leadingFraction cs x scale true
    else if x > 9223372036854775807 / 10 then leadingFraction cs x scale true
    else if x * 10 + (c.toNat - 48) > 9223372036854775808 then leadingFraction cs x scale true
    else leadingFraction cs (x * 10 + (c.toNat - 48)) (scale * 10) false

/-- Go `time.unitMap`, in nanoseconds; the micro sign is U+00B5 or U+03BC. -/
def unitMap : List (String × Nat) :=
  [("ns", 1), ("us", 1000), ("µs", 1000), ("μs", 1000), ("ms", 1000000),
   ("s", 1000000000), ("m", 60000000000), ("h", 3600000000000)]

/-- A character that starts a number in a duration: a point or a digit. -/
def isNumberStart (c : Char) : Bool := c == '.' || (48 ≤ c.toNat && c.toNat ≤ 57)

/-- One round of the loop of Go `time.ParseDuration`: a number, a unit, and the
sum so far in the `uint64` `d`; the result is the new sum and the rest of the
input, `none` for an error.  `fracNanos f unit scale` is the one floating-point
step, `uint64(float64(f) * (float64(unit) / scale))`. -/
def parseGroup (fracNanos : Nat → Nat → Nat → Nat) (s : List Char) (d : Nat) :
    Option (Nat × List Char) :=
  match s with
  | [] => none
  | c0 :: _ =>
    if !isNumberStart c0 then none
    else
      match leadingInt s 0 with
      | none => none
      | some (v, s1) =>
        let pre : Bool := s.length != s1.length
        let frac : Nat × Nat × List Char × Bool :=
          match s1 with
          | [] => (0, 1, s1, false)
          | c1 :: t =>
            if c1 = '.' then
              let r := leadingFraction t 0 1 false
              (r.1, r.2.1, r.2.2, t.length != r.2.2.length)
            else (0, 1, s1, false)
        if !pre && !frac.2.2.2 then none
        else
          let u := frac.2.2.1.takeWhile (fun c => !isNumberStart c)
          let s3 := frac.2.2.1.dropWhile (fun c => !isNumberStart c)
          if u = [] then none
          else
            match unitMap.lookup (String.mk u) with
            | none => none
            | some unit =>
              if v > 9223372036854775808 / unit then none
              else
                let whole := v * unit
                let total : Option Nat :=
                  if frac.1 > 0 then
                    let w := (whole + fracNanos frac.1 unit frac.2.1) % 18446744073709551616
                    if w > 9223372036854775808 then none else some w
                  else some whole
                match total with
                | none => none
                | some w =>
                  let sum := (d + w) % 18446744073709551616
                  if sum > 9223372036854775808 then none
                  else some (sum, s3)

/-- The loop of Go `time.ParseDuration`, `for s != ""`, with a bound on the
number of rounds. -/
def parseGroups (fracNanos : Nat → Nat → Nat → Nat) : Nat → List Char → Nat → Option Nat
  | 0, _, _ => none
  | fuel + 1, s, d =>
    if s = [] then some d
    else
      match parseGroup fracNanos s d with
      | none => none
      | some (sum, rest) => parseGroups fracNanos fuel rest sum

/-- Go `time.ParseDuration`, in nanoseconds; `none` stands for a non-nil error. -/
def ParseDuration (fracNanos : Nat → Nat → Nat → Nat) (s : String) : Option Int :=
  let signed : Bool × List Char :=
    match s.data with
    | [] => (false, [])
    | c :: rest => if c = '-' then (true, rest) else if c = '+' then (false, rest) else (false, c :: rest)
  if signed.2 = ['0'] then some 0
  else if signed.2 = [] then none
  else
    match parseGroups fracNanos (signed.2.length + 1) signed.2 0 with
    | none => none
    | some d =>
      if signed.1 then some (wrapInt64 (-(wrapInt64 d)))
      else if (d : Int) > maxInt64 then none
      else some d

/-- Go `strconv.Atoi`, with `int` of 64 bits. -/
def Atoi (s : String) : Option Int := ParseInt s

/-! ### Configuration -/

def defaultListenAddr : String := ":8080"

def defaultTimeoutEnvKey : String := "volant_AGENT_DEFAULT_TIMEOUT"

def defaultListenEnvKey : String := "volant_AGENT_LISTEN_ADDR"

def defaultRemoteAddrKey : String := "volant_AGENT_REMOTE_DEBUGGING_ADDR"

def defaultRemotePortKey : String := "volant_AGENT_REMOTE_DEBUGGING_PORT"

def defaultUserDataDirKey : String := "volant_AGENT_USER_DATA_DIR"

def defaultExecPathKey : String := "volant_AGENT_EXEC_PATH"

/-- `Config`. -/
structure Config where
  ListenAddr : String
  RemoteDebuggingAddr : String
  RemoteDebuggingPort : Int
  UserDataDir : String
  ExecPath : String
  DefaultTimeout : Int
  deriving DecidableEq, Repr

/-- `envOrDefault`; `getenv` is `os.Getenv`, the empty string for a variable
that is not set. -/
def envOrDefault (getenv : String → String) (key fallback : String) : String :=
  if TrimSpace (getenv key) ≠ "" then TrimSpace (getenv key) else fallback

/-- `envIntOrDefault`. -/
def envIntOrDefault (getenv : String → String) (key : String) (fallback : Int) : Int :=
  if TrimSpace (getenv key) ≠ "" then
    match Atoi (TrimSpace (getenv key)) with
    | some parsed => if parsed > 0 then parsed else fallback
    | none => fallback
  else fallback

/-- `parseDurationEnv`. -/
def parseDurationEnv (fracNanos : Nat → Nat → Nat → Nat) (getenv : String → String)
    (key : String) (fallback : Int) : Int :=
  if TrimSpace (getenv key) ≠ "" then
    match ParseDuration fracNanos (TrimSpace (getenv key)) with
    | some parsed => parsed
    | none =>
      match ParseInt (TrimSpace (getenv key)) with
      | some ms => wrapInt64 (ms * Millisecond)
      | none => fallback
  else fallback

/-- `loadConfig`.  `DefaultRemoteAddr`, `DefaultRemotePort` and
`DefaultActionTimeout` are constants of the package `browser`, declared with the
browser controller. -/
def loadConfig (fracNanos : Nat → Nat → Nat → Nat) (getenv : String → String)
    (DefaultRemoteAddr : String) (DefaultRemotePort DefaultActionTimeout : Int) : Config :=
  let remoteAddr := envOrDefault getenv defaultRemoteAddrKey DefaultRemoteAddr
  let remotePort := envIntOrDefault getenv defaultRemotePortKey DefaultRemotePort
  let defaultTimeout := parseDurationEnv fracNanos getenv defaultTimeoutEnvKey DefaultActionTimeout
  { ListenAddr := envOrDefault getenv defaultListenEnvKey defaultListenAddr,
    RemoteDebuggingAddr := remoteAddr,
    RemoteDebuggingPort := remotePort,
    UserDataDir := getenv defaultUserDataDirKey,
    ExecPath := getenv defaultExecPathKey,
    DefaultTimeout := defaultTimeout }

/-! ## The session lifecycle and the event bus -/

/-- Modelled from the spec: the lifecycle state of the Session (section 3),
`Starting → Ready → Closing → Closed`, kept by the browser controller. -/
inductive Lifecycle where
  | Starting | Ready | Closing | Closed
  deriving DecidableEq, Repr

/-- Modelled from the spec: a LogEvent (section 3), a timestamped, leveled
message; the type is declared with the browser controller. -/
structure LogEvent where
  timestamp : String
  level : String
  message : String
  deriving DecidableEq, Repr

/-- Modelled from the spec: a Subscriber of the EventBus (sections 3 and 4.3),
with its bounded delivery buffer; the controller's `SubscribeLogs` creates it.
`buffer` holds the events delivered so far, oldest first, and `closed` is set
once the unsubscribe function has been called. -/
structure Subscriber where
  capacity : Nat
  buffer : List LogEvent
  closed : Bool
  deriving DecidableEq, Repr

/-- Modelled from the spec: the EventBus (section 4.3) of the browser
controller: its subscribers in the order they registered; the position of a
subscriber is its identity. -/
structure EventBus where
  subscribers : List Subscriber
  deriving DecidableEq, Repr

/-- Modelled from the spec: the bus of a fresh session, without subscribers. -/
def EventBus.empty : EventBus := ⟨[]⟩

/-- Modelled from the spec: `Subscribe(bufferSize)` of the EventBus (section
4.3), the controller's `SubscribeLogs`: registers a subscriber with an empty
buffer of the given size and returns its identity. -/
def EventBus.Subscribe (bus : EventBus) (bufferSize : Nat) : EventBus × Nat :=
  (⟨bus.subscribers ++ [⟨bufferSize, [], false⟩]⟩, bus.subscribers.length)

/-- Modelled from the spec: marks the subscriber at position `id` as
unsubscribed. -/
def closeAt : Nat → List Subscriber → List Subscriber
  | _, [] => []
  | 0, sub :: rest => { sub with closed := true } :: rest
  | id + 1, sub :: rest => sub :: closeAt id rest

/-- Modelled from the spec: the unsubscribe function `Subscribe` returns for
the subscriber `id` (section 4.3). -/
def EventBus.Unsubscribe (bus : EventBus) (id : Nat) : EventBus :=
  ⟨closeAt id bus.subscribers⟩

/-- Modelled from the spec: the delivery of one event to one subscriber by
`Publish` (section 4.3): nothing after unsubscribe, appended when the buffer has
room, dropped when it is full. -/
def Subscriber.deliver (event : LogEvent) (sub : Subscriber) : Subscriber :=
  if sub.closed then sub
  else if sub.buffer.length < sub.capacity then { sub with buffer := sub.buffer ++ [event] }
  else sub

/-- Modelled from the spec: `Publish(event)` of the EventBus (section 4.3). -/
def EventBus.Publish (bus : EventBus) (event : LogEvent) : EventBus :=
  ⟨bus.subscribers.map (Subscriber.deliver event)⟩

/-- Modelled from the spec: the events the subscriber `id` has received. -/
def EventBus.received (bus : EventBus) (id : Nat) : List LogEvent :=
  match bus.subscribers[id]? with
  | some sub => sub.buffer
  | none => []

/-- `Runtime.SubscribeLogs`: the call is passed on to the controller, which
owns the bus. -/
def SubscribeLogs (bus : EventBus) (buffer : Nat) : EventBus × Nat :=
  bus.Subscribe buffer

/-- A run of `SubscribeLogs` calls, one per buffer size. -/
def subscribeAll : List Nat → EventBus → EventBus
  | [], bus => bus
  | size :: sizes, bus => subscribeAll sizes (SubscribeLogs bus size).1

/-- A run of calls of unsubscribe functions, given by the identities. -/
def unsubscribeAll : List Nat → EventBus → EventBus
  | [], bus => bus
  | id :: ids, bus => unsubscribeAll ids (bus.Unsubscribe id)

/-! ## Fixtures: sessions and environments for the examples -/

/-- A session on which every call succeeds: a screenshot is the four bytes
`89 50 4E 47`, texts are empty, no cookies and no storage are set. -/
def okBrowser : Browser Unit where
  Navigate := fun _ _ s => (none, s)
  Reload := fun _ _ s => (none, s)
  Back := fun _ s => (none, s)
  Forward := fun _ s => (none, s)
  SetViewport := fun _ _ _ _ _ s => (none, s)
  SetUserAgent := fun _ _ _ _ s => (none, s)
  WaitForNavigation := fun _ s => (none, s)
  Screenshot := fun _ _ _ _ s => (.ok [137, 80, 78, 71], s)
  Click := fun _ _ _ s => (none, s)
  TypeText := fun _ _ _ _ s => (none, s)
  GetText := fun _ _ _ s => (.ok "", s)
  GetHTML := fun _ _ s => (.ok "", s)
  GetAttribute := fun _ _ _ s => (.ok ("", false), s)
  WaitForSelector := fun _ _ _ s => (none, s)
  Evaluate := fun _ _ _ s => (.ok "null", s)
  SetCookies := fun _ _ s => (none, s)
  SetStorage := fun _ _ s => (none, s)
  GetCookies := fun _ s => (.ok [], s)
  GetStorage := fun _ s => (.ok ⟨[], []⟩, s)
  DevToolsInfo := fun _ => ⟨[]⟩

/-- The error of a call whose deadline passed. -/
def deadlineExceeded : GoError := ⟨"context deadline exceeded", true⟩

/-- A session on which every call runs into its deadline. -/
def timeoutBrowser : Browser Unit where
  Navigate := fun _ _ s => (some deadlineExceeded, s)
  Reload := fun _ _ s => (some deadlineExceeded, s)
  Back := fun _ s => (some deadlineExceeded, s)
  Forward := fun _ s => (some deadlineExceeded, s)
  SetViewport := fun _ _ _ _ _ s => (some deadlineExceeded, s)
  SetUserAgent := fun _ _ _ _ s => (some deadlineExceeded, s)
  WaitForNavigation := fun _ s => (some deadlineExceeded, s)
  Screenshot := fun _ _ _ _ s => (.error deadlineExceeded, s)
  Click := fun _ _ _ s => (some deadlineExceeded, s)
  TypeText := fun _ _ _ _ s => (some deadlineExceeded, s)
  GetText := fun _ _ _ s => (.error deadlineExceeded, s)
  GetHTML := fun _ _ s => (.error deadlineExceeded, s)
  GetAttribute := fun _ _ _ s => (.error deadlineExceeded, s)
  WaitForSelector := fun _ _ _ s => (some deadlineExceeded, s)
  Evaluate := fun _ _ _ s => (.error deadlineExceeded, s)
  SetCookies := fun _ _ s => (some deadlineExceeded, s)
  SetStorage := fun _ _ s => (some deadlineExceeded, s)
  GetCookies := fun _ s => (.error deadlineExceeded, s)
  GetStorage := fun _ s => (.error deadlineExceeded, s)
  DevToolsInfo := fun _ => ⟨[]⟩

/-- A conversion `int64(f)` for the fixtures: the bit pattern read as a number
of seconds. -/
def bitsAsSeconds (f : Float64) : Int := f.bits

/-- A session whose state is its lifecycle state: every call succeeds and
leaves the state as it is, and the descriptor names one endpoint. -/
def lifecycleBrowser : Browser Lifecycle where
  Navigate := fun _ _ s => (none, s)
  Reload := fun _ _ s => (none, s)
  Back := fun _ s => (none, s)
  Forward := fun _ s => (none, s)
  SetViewport := fun _ _ _ _ _ s => (none, s)
  SetUserAgent := fun _ _ _ _ s => (none, s)
  WaitForNavigation := fun _ s => (none, s)
  Screenshot := fun _ _ _ _ s => (.ok [], s)
  Click := fun _ _ _ s => (none, s)
  TypeText := fun _ _ _ _ s => (none, s)
  GetText := fun _ _ _ s => (.ok "", s)
  GetHTML := fun _ _ s => (.ok "", s)
  GetAttribute := fun _ _ _ s => (.ok ("", false), s)
  WaitForSelector := fun _ _ _ s => (none, s)
  Evaluate := fun _ _ _ s => (.ok "null", s)
  SetCookies := fun _ _ s => (none, s)
  SetStorage := fun _ _ s => (none, s)
  GetCookies := fun _ s => (.ok [], s)
  GetStorage := fun _ s => (.ok ⟨[], []⟩, s)
  DevToolsInfo := fun _ => ⟨[("websocket_url", .str "ws://127.0.0.1:9222/devtools/browser/1")]⟩

/-- An environment that sets only the default timeout, to `value`. -/
def timeoutEnv (value : String) : String → String :=
  fun key => if key = "volant_AGENT_DEFAULT_TIMEOUT" then value else ""

/-! ## Theorems -/

/-! ### Strings -/

theorem mk_eq_empty_iff (l : List Char) : String.mk l = "" ↔ l = [] := by
  constructor
  · intro h
    have := congrArg String.data h
    simpa using this
  · intro h
    subst h
    rfl

theorem dropWhile_all_of_tail_all {α : Type} (p : α → Bool) (l : List α)
    (h : ∀ x ∈ l.dropWhile p, p x = true) : ∀ x ∈ l, p x = true := by
  induction l with
  | nil => intro x hx; cases hx
  | cons a t ih =>
    by_cases ha : p a = true
    · rw [List.dropWhile_cons_of_pos ha] at h
      intro x hx
      rcases List.mem_cons.mp hx with hxa | hxt
      · rw [hxa]; exact ha
      · exact ih h x hxt
    · rw [List.dropWhile_cons_of_neg ha] at h
      exact absurd (h a (List.mem_cons_self a t)) ha

/-- `strings.TrimSpace(s) == ""` holds exactly for the strings made of white
space only, the empty string among them. -/
theorem TrimSpace_eq_empty_iff (s : String) :
    TrimSpace s = "" ↔ ∀ c ∈ s.data, isSpace c = true := by
  unfold TrimSpace
  rw [mk_eq_empty_iff, List.reverse_eq_nil_iff, List.dropWhile_eq_nil_iff]
  constructor
  · intro h
    apply dropWhile_all_of_tail_all
    intro x hx
    exact h x (List.mem_reverse.mpr hx)
  · intro h x hx
    have hx1 : x ∈ s.data.dropWhile isSpace := List.mem_reverse.mp hx
    exact h x ((List.dropWhile_sublist isSpace).subset hx1)

/-! ### Timeouts -/

/-- A timeout in milliseconds whose product with `time.Millisecond` fits an
`int64` resolves to that product, a positive duration. -/
theorem duration_of_pos {σ : Type} (DefaultActionTimeout : Int) (r : Runtime σ) (ms : Int)
    (hpos : 0 < ms) (hfit : ms ≤ 9223372036854) :
    r.duration DefaultActionTimeout ms = ms * 1000000 ∧
    0 < r.duration DefaultActionTimeout ms := by
  have hval : r.duration DefaultActionTimeout ms = ms * 1000000 := by
    unfold Runtime.duration wrapInt64 Millisecond
    rw [if_neg (by omega)]
    omega
  exact ⟨hval, by omega⟩

/-- C1: for every `timeout_ms ≤ 0`, `Runtime.duration` returns the runtime's
`defaultTimeout` when that is positive and the floor `DefaultActionTimeout`
otherwise; with a positive floor the result is never 0. -/
theorem duration_nonpositive_ms {σ : Type} (DefaultActionTimeout : Int) (r : Runtime σ)
    (ms : Int) (hms : ms ≤ 0) (hfloor : 0 < DefaultActionTimeout) :
    (0 < r.defaultTimeout → r.duration DefaultActionTimeout ms = r.defaultTimeout) ∧
    (¬ 0 < r.defaultTimeout → r.duration DefaultActionTimeout ms = DefaultActionTimeout) ∧
    r.duration DefaultActionTimeout ms ≠ 0 := by
  unfold Runtime.duration
  rw [if_pos hms]
  refine ⟨fun h => if_pos h, fun h => if_neg h, ?_⟩
  split <;> omega

/-- Witness of C1 with the floor at 30 s: an unset default at `timeout_ms = 0`
resolves to the floor. -/
theorem duration_nonpositive_ms_witness :
    (Runtime.mk okBrowser 0).duration 30000000000 0 = 30000000000 :=
  (duration_nonpositive_ms 30000000000 ⟨okBrowser, 0⟩ 0 (by decide) (by decide)).2.1
    (by decide)

/-- C2 at the failing input: `timeout_ms = 9223372036855` is a positive `int64`
(`queryTimeout` returns it as it is), its product with `time.Millisecond` wraps,
and the resolved duration is negative whatever the session default and the floor
are; at `timeout_ms = 2^58` the product wraps to 0. -/
theorem duration_overflow_negative {σ : Type} (DefaultActionTimeout : Int) (r : Runtime σ) :
    queryTimeout "9223372036855" = 9223372036855 ∧
    (0 : Int) < 9223372036855 ∧ (9223372036855 : Int) ≤ maxInt64 ∧
    r.duration DefaultActionTimeout 9223372036855 = -9223372036854551616 ∧
    r.duration DefaultActionTimeout 9223372036855 < 0 ∧
    r.duration DefaultActionTimeout 288230376151711744 = 0 := by
  refine ⟨by decide, by decide, by decide, ?_, ?_, ?_⟩ <;>
    simp [Runtime.duration, wrapInt64, Millisecond]

/-! ### Cookies -/

theorem convertCookies_error_of_mem (int64OfFloat64 : Float64 → Int)
    (reqs : List cookieParamRequest) (acc : List CookieParam)
    (hbad : ∃ c ∈ reqs, ∃ err, convertCookieParam int64OfFloat64 c = .error err) :
    ∃ err, convertCookies int64OfFloat64 reqs acc = .error err := by
  induction reqs generalizing acc with
  | nil =>
    obtain ⟨c, hc, _⟩ := hbad
    cases hc
  | cons a t ih =>
    unfold convertCookies
    cases hconv : convertCookieParam int64OfFloat64 a with
    | error e => exact ⟨e, rfl⟩
    | ok cookie =>
      obtain ⟨c, hc, err, herr⟩ := hbad
      rcases List.mem_cons.mp hc with hca | hct
      · rw [hca, hconv] at herr
        cases herr
      · exact ih (acc ++ [cookie]) ⟨c, hct, err, herr⟩

/-- C3: when the cookie list of a `/profile/attach` request holds a cookie that
`convertCookieParam` rejects, at any position and with any storage entries, the
handler answers 400 with an error object, makes no session call (neither
`SetCookies` nor `SetStorage`) and leaves the session as it was. -/
theorem attach_rejected_cookie_applies_nothing {σ : Type} (DefaultActionTimeout : Int)
    (int64OfFloat64 : Float64 → Int) (r : Runtime σ) (dec : Decoded profileAttachRequest)
    (s : σ)
    (hbad : ∃ c ∈ dec.dest.Cookies, ∃ err, convertCookieParam int64OfFloat64 c = .error err) :
    (∃ err, (handleProfileAttach DefaultActionTimeout int64OfFloat64 r dec s).response
        = errorJSON StatusBadRequest err) ∧
    (handleProfileAttach DefaultActionTimeout int64OfFloat64 r dec s).response.status = 400 ∧
    (handleProfileAttach DefaultActionTimeout int64OfFloat64 r dec s).calls = [] ∧
    (handleProfileAttach DefaultActionTimeout int64OfFloat64 r dec s).state = s := by
  obtain ⟨e, he⟩ := convertCookies_error_of_mem int64OfFloat64 dec.dest.Cookies [] hbad
  have hout : ∃ err, handleProfileAttach DefaultActionTimeout int64OfFloat64 r dec s
      = ⟨errorJSON StatusBadRequest err, [], s⟩ := by
    unfold handleProfileAttach
    cases hdec : dec.err with
    | some err => exact ⟨err, rfl⟩
    | none => exact ⟨e, by simp only [he]⟩
  obtain ⟨err, herr⟩ := hout
  rw [herr]
  exact ⟨⟨err, rfl⟩, rfl, rfl, rfl⟩

/-- Witness of C3: a good cookie, then a cookie without a name, with local
storage supplied, on a session that would accept everything. -/
theorem attach_rejected_cookie_applies_nothing_witness :
    (handleProfileAttach 30000000000 bitsAsSeconds ⟨okBrowser, 0⟩
      ⟨⟨[⟨"a", "1", "example.com", "/", none, false, false, ""⟩,
          ⟨"", "2", "example.com", "/", none, false, false, ""⟩],
        [("k", "v")], [], 0⟩, none⟩ ()).calls = [] :=
  (attach_rejected_cookie_applies_nothing 30000000000 bitsAsSeconds ⟨okBrowser, 0⟩
    ⟨⟨[⟨"a", "1", "example.com", "/", none, false, false, ""⟩,
        ⟨"", "2", "example.com", "/", none, false, false, ""⟩],
      [("k", "v")], [], 0⟩, none⟩ ()
    ⟨⟨"", "2", "example.com", "/", none, false, false, ""⟩, by simp,
      errorsNew "cookie name required", rfl⟩).2.2.1

/-- C4: `convertCookieParam` returns an error exactly when the name is empty or
white space only, or `same_site` is not empty and its lower-cased form is none
of `lax`, `strict`, `none`; in every other case it succeeds; and with an empty
`same_site` the cookie it returns has `SameSite` unset. -/
theorem convertCookieParam_error_iff (int64OfFloat64 : Float64 → Int)
    (req : cookieParamRequest) :
    ((∃ err, convertCookieParam int64OfFloat64 req = .error err) ↔
      ((∀ c ∈ req.Name.data, isSpace c = true) ∨
        (req.SameSite ≠ "" ∧ ToLower req.SameSite ≠ "lax" ∧
          ToLower req.SameSite ≠ "strict" ∧ ToLower req.SameSite ≠ "none"))) ∧
    ((∃ cookie, convertCookieParam int64OfFloat64 req = .ok cookie) ↔
      ¬ ((∀ c ∈ req.Name.data, isSpace c = true) ∨
        (req.SameSite ≠ "" ∧ ToLower req.SameSite ≠ "lax" ∧
          ToLower req.SameSite ≠ "strict" ∧ ToLower req.SameSite ≠ "none"))) ∧
    (∀ cookie, req.SameSite = "" → convertCookieParam int64OfFloat64 req = .ok cookie →
      cookie.SameSite = "") := by
  rw [← TrimSpace_eq_empty_iff]
  unfold convertCookieParam
  by_cases h1 : TrimSpace req.Name = ""
  · simp [h1]
  · by_cases h2 : req.SameSite = ""
    · cases hexp : req.Expires <;> simp [h1, h2]
    · by_cases h3 : ToLower req.SameSite = "lax"
      · cases hexp : req.Expires <;> simp [h1, h2, h3]
      · by_cases h4 : ToLower req.SameSite = "strict"
        · cases hexp : req.Expires <;> simp [h1, h2, h3, h4]
        · by_cases h5 : ToLower req.SameSite = "none"
          · cases hexp : req.Expires <;> simp [h1, h2, h3, h4, h5]
          · simp [h1, h2, h3, h4, h5]

/-- Witness of C4: `same_site` given as `sideways` is rejected, whatever else
the cookie holds. -/
theorem convertCookieParam_error_iff_witness :
    ∃ err, convertCookieParam bitsAsSeconds
      ⟨"a", "1", "example.com", "/", none, false, false, "sideways"⟩ = .error err :=
  (convertCookieParam_error_iff bitsAsSeconds
    ⟨"a", "1", "example.com", "/", none, false, false, "sideways"⟩).1.mpr
    (Or.inr ⟨by decide, by decide, by decide, by decide⟩)

theorem mapCookies_eq_map (cookies : List Cookie) : mapCookies cookies = cookies.map mapCookie := by
  induction cookies with
  | nil => rfl
  | cons c t ih => simp [mapCookies, ih]

theorem convertCookieParam_fields (int64OfFloat64 : Float64 → Int) (req : cookieParamRequest)
    (cookie : CookieParam) (h : convertCookieParam int64OfFloat64 req = .ok cookie) :
    cookie.Name = req.Name ∧ cookie.Value = req.Value ∧ cookie.Domain = req.Domain ∧
    cookie.Path = req.Path ∧ cookie.HTTPOnly = req.HTTPOnly ∧ cookie.Secure = req.Secure := by
  unfold convertCookieParam at h
  by_cases h1 : TrimSpace req.Name = ""
  · simp [h1] at h
  · by_cases h2 : req.SameSite = ""
    · cases hexp : req.Expires <;> simp [h1, h2, hexp] at h <;> subst h <;> simp
    · by_cases h3 : ToLower req.SameSite = "lax"
      · cases hexp : req.Expires <;> simp [h1, h2, h3, hexp] at h <;> subst h <;> simp
      · by_cases h4 : ToLower req.SameSite = "strict"
        · cases hexp : req.Expires <;> simp [h1, h2, h3, h4, hexp] at h <;> subst h <;> simp
        · by_cases h5 : ToLower req.SameSite = "none"
          · cases hexp : req.Expires <;> simp [h1, h2, h3, h4, h5, hexp] at h <;> subst h <;> simp
          · simp [h1, h2, h3, h4, h5] at h

theorem mapCookie_fields (c : Cookie) :
    (mapCookie c).lookup "name" = some (.str c.Name) ∧
    (mapCookie c).lookup "value" = some (.str c.Value) ∧
    (mapCookie c).lookup "domain" = some (.str c.Domain) ∧
    (mapCookie c).lookup "path" = some (.str c.Path) ∧
    (mapCookie c).lookup "http_only" = some (.bool c.HTTPOnly) ∧
    (mapCookie c).lookup "secure" = some (.bool c.Secure) :=
  ⟨rfl, rfl, rfl, rfl, rfl, rfl⟩

/-- C5: a cookie request accepted by `convertCookieParam` gives a protocol
cookie with the request's very name, value, domain, path, `http_only` and
`secure`; `mapCookies` returns one item per session cookie, in the order of the
cookies, with the cookie's name, value, domain, path, `http_only` and `secure`;
hence, when the session hands back a cookie with the name, value and domain of
the cookie attached from `name "a"`, `value "1"`, `domain "example.com"`, the
extracted items hold one with these three values. -/
theorem cookie_round_trip (int64OfFloat64 : Float64 → Int) :
    (∀ req cookie, convertCookieParam int64OfFloat64 req = .ok cookie →
      cookie.Name = req.Name ∧ cookie.Value = req.Value ∧ cookie.Domain = req.Domain ∧
      cookie.Path = req.Path ∧ cookie.HTTPOnly = req.HTTPOnly ∧ cookie.Secure = req.Secure) ∧
    (∀ cookies : List Cookie,
      (mapCookies cookies).length = cookies.length ∧
      ∀ (i : Nat) (c : Cookie), cookies[i]? = some c →
        ∃ item, (mapCookies cookies)[i]? = some item ∧
          item.lookup "name" = some (.str c.Name) ∧
          item.lookup "value" = some (.str c.Value) ∧
          item.lookup "domain" = some (.str c.Domain) ∧
          item.lookup "path" = some (.str c.Path) ∧
          item.lookup "http_only" = some (.bool c.HTTPOnly) ∧
          item.lookup "secure" = some (.bool c.Secure)) ∧
    (∀ (req : cookieParamRequest) (attached : CookieParam) (stored : Cookie)
        (cookies : List Cookie),
      req.Name = "a" → req.Value = "1" → req.Domain = "example.com" →
      convertCookieParam int64OfFloat64 req = .ok attached →
      stored.Name = attached.Name → stored.Value = attached.Value →
      stored.Domain = attached.Domain → stored ∈ cookies →
      ∃ item ∈ mapCookies cookies,
        item.lookup "name" = some (.str "a") ∧
        item.lookup "value" = some (.str "1") ∧
        item.lookup "domain" = some (.str "example.com")) := by
  refine ⟨convertCookieParam_fields int64OfFloat64, ?_, ?_⟩
  · intro cookies
    rw [mapCookies_eq_map]
    refine ⟨List.length_map _ _, ?_⟩
    intro i c hc
    refine ⟨mapCookie c, ?_, mapCookie_fields c⟩
    rw [List.getElem?_map, hc]
    rfl
  · intro req attached stored cookies hn hv hd hconv hsn hsv hsd hmem
    obtain ⟨an, av, ad, _⟩ := convertCookieParam_fields int64OfFloat64 req attached hconv
    refine ⟨mapCookie stored, ?_, ?_⟩
    · rw [mapCookies_eq_map]
      exact List.mem_map_of_mem mapCookie hmem
    · have hf := mapCookie_fields stored
      rw [hsn, hsv, hsd, an, av, ad, hn, hv, hd] at hf
      exact ⟨hf.1, hf.2.1, hf.2.2.1⟩

/-- Witness of C5: the cookie `a=1` for `example.com` is attached and the
session hands it back among others. -/
theorem cookie_round_trip_witness :
    ∃ item ∈ mapCookies [⟨"z", "0", "example.org", "/", ⟨0⟩, false, false, ""⟩,
        ⟨"a", "1", "example.com", "", ⟨0⟩, false, false, ""⟩],
      item.lookup "name" = some (.str "a") ∧
      item.lookup "value" = some (.str "1") ∧
      item.lookup "domain" = some (.str "example.com") :=
  (cookie_round_trip bitsAsSeconds).2.2
    ⟨"a", "1", "example.com", "", none, false, false, ""⟩
    ⟨"a", "1", "example.com", "", false, false, "", none⟩
    ⟨"a", "1", "example.com", "", ⟨0⟩, false, false, ""⟩
    [⟨"z", "0", "example.org", "/", ⟨0⟩, false, false, ""⟩,
      ⟨"a", "1", "example.com", "", ⟨0⟩, false, false, ""⟩]
    rfl rfl rfl rfl rfl rfl rfl (by simp)

/-! ### Validation before the session -/

/-- C6: a navigate request that decoded and whose `url` is empty or white space
only is answered 400 with the error `url is required`; `Navigate` is not called,
nor anything else on the session, which stays as it was. -/
theorem navigate_blank_url_rejected {σ : Type} (DefaultActionTimeout : Int) (r : Runtime σ)
    (dec : Decoded navigateRequest) (s : σ) (hdec : dec.err = none)
    (hurl : ∀ c ∈ dec.dest.URL.data, isSpace c = true) :
    (handleNavigate DefaultActionTimeout r dec s).response
      = ⟨400, [("error", .str "url is required")]⟩ ∧
    (handleNavigate DefaultActionTimeout r dec s).calls = [] ∧
    (handleNavigate DefaultActionTimeout r dec s).state = s := by
  have htrim : TrimSpace dec.dest.URL = "" := (TrimSpace_eq_empty_iff _).mpr hurl
  have hout : handleNavigate DefaultActionTimeout r dec s
      = ⟨errorJSON StatusBadRequest (errorsNew "url is required"), [], s⟩ := by
    unfold handleNavigate
    simp only [hdec, htrim, if_true]
  rw [hout]
  exact ⟨rfl, rfl, rfl⟩

/-- Witness of C6: a `url` of a space and a tab, on a session that would accept
the navigation. -/
theorem navigate_blank_url_rejected_witness :
    (handleNavigate 30000000000 ⟨okBrowser, 0⟩ ⟨⟨" \t", 0⟩, none⟩ ()).calls = [] :=
  (navigate_blank_url_rejected 30000000000 ⟨okBrowser, 0⟩ ⟨⟨" \t", 0⟩, none⟩ () rfl
    (by decide)).2.1

/-! ### Base64 -/

theorem alphabet_facts : ∀ i : Fin 64,
    decodeChar (encodeStd.getD i.val 'A') = some i.val ∧
    encodeStd.getD i.val 'A' ≠ '=' ∧ encodeStd.getD i.val 'A' ≠ '\r' ∧
    encodeStd.getD i.val 'A' ≠ '\n' := by
  decide

theorem decodeChar_encodeChar (v : Nat) : decodeChar (encodeChar v) = some (v % 64) :=
  (alphabet_facts ⟨v % 64, Nat.mod_lt v (by decide)⟩).1

theorem encodeChar_ne_pad (v : Nat) : encodeChar v ≠ '=' :=
  (alphabet_facts ⟨v % 64, Nat.mod_lt v (by decide)⟩).2.1

theorem encodeChar_not_newline (v : Nat) :
    (!(encodeChar v == '\r' || encodeChar v == '\n')) = true := by
  have h := alphabet_facts ⟨v % 64, Nat.mod_lt v (by decide)⟩
  have h1 : encodeChar v ≠ '\r' := h.2.2.1
  have h2 : encodeChar v ≠ '\n' := h.2.2.2
  simp [h1, h2]

theorem encodeQuanta_no_newline (src : List Byte) :
    (encodeQuanta src).filter (fun c => !(c == '\r' || c == '\n')) = encodeQuanta src := by
  induction src using encodeQuanta.induct with
  | case1 a b c rest ih =>
    simp only [encodeQuanta, List.filter_cons, encodeChar_not_newline, if_true, ih]
  | case2 a b =>
    simp only [encodeQuanta, List.filter_cons, encodeChar_not_newline, if_true, List.filter_nil]
    rfl
  | case3 a =>
    simp only [encodeQuanta, List.filter_cons, encodeChar_not_newline, if_true, List.filter_nil]
    rfl
  | case4 => rfl

theorem decodeQuanta_encodeQuanta (src : List Byte) :
    decodeQuanta (encodeQuanta src) = .ok src := by
  induction src using encodeQuanta.induct with
  | case1 a b c rest ih =>
    have ha := a.isLt
    have hb := b.isLt
    have hc := c.isLt
    simp only [encodeQuanta, decodeQuanta, encodeChar_ne_pad, and_false, if_false,
      decodeChar_encodeChar, ih]
    have e1 : byteOf (((a.val * 65536 + b.val * 256 + c.val) / 262144 % 64 * 262144 +
        (a.val * 65536 + b.val * 256 + c.val) / 4096 % 64 * 4096 +
        (a.val * 65536 + b.val * 256 + c.val) / 64 % 64 * 64 +
        (a.val * 65536 + b.val * 256 + c.val) % 64) / 65536) = a := by
      apply Fin.ext
      show _ % 256 = a.val
      omega
    have e2 : byteOf (((a.val * 65536 + b.val * 256 + c.val) / 262144 % 64 * 262144 +
        (a.val * 65536 + b.val * 256 + c.val) / 4096 % 64 * 4096 +
        (a.val * 65536 + b.val * 256 + c.val) / 64 % 64 * 64 +
        (a.val * 65536 + b.val * 256 + c.val) % 64) / 256) = b := by
      apply Fin.ext
      show _ % 256 = b.val
      omega
    have e3 : byteOf ((a.val * 65536 + b.val * 256 + c.val) / 262144 % 64 * 262144 +
        (a.val * 65536 + b.val * 256 + c.val) / 4096 % 64 * 4096 +
        (a.val * 65536 + b.val * 256 + c.val) / 64 % 64 * 64 +
        (a.val * 65536 + b.val * 256 + c.val) % 64) = c := by
      apply Fin.ext
      show _ % 256 = c.val
      omega
    rw [e1, e2, e3]
  | case2 a b =>
    have ha := a.isLt
    have hb := b.isLt
    simp only [encodeQuanta, decodeQuanta, encodeChar_ne_pad, and_self, if_true, if_false,
      decodeChar_encodeChar]
    have e1 : byteOf (((a.val * 65536 + b.val * 256) / 262144 % 64 * 262144 +
        (a.val * 65536 + b.val * 256) / 4096 % 64 * 4096 +
        (a.val * 65536 + b.val * 256) / 64 % 64 * 64) / 65536) = a := by
      apply Fin.ext
      show _ % 256 = a.val
      omega
    have e2 : byteOf (((a.val * 65536 + b.val * 256) / 262144 % 64 * 262144 +
        (a.val * 65536 + b.val * 256) / 4096 % 64 * 4096 +
        (a.val * 65536 + b.val * 256) / 64 % 64 * 64) / 256) = b := by
      apply Fin.ext
      show _ % 256 = b.val
      omega
    rw [e1, e2]
  | case3 a =>
    have ha := a.isLt
    simp only [encodeQuanta, decodeQuanta, and_self, if_true, decodeChar_encodeChar]
    have e1 : byteOf (((a.val * 65536) / 262144 % 64 * 262144 +
        (a.val * 65536) / 4096 % 64 * 4096) / 65536) = a := by
      apply Fin.ext
      show _ % 256 = a.val
      omega
    rw [e1]
  | case4 => rfl

theorem DecodeString_EncodeToString (src : List Byte) :
    DecodeString (EncodeToString src) = .ok src := by
  unfold DecodeString EncodeToString
  rw [encodeQuanta_no_newline, decodeQuanta_encodeQuanta]

/-! ### Screenshot -/

/-- C7: when `Screenshot` returns the bytes `d`, the response is 200, its `data`
is the standard base64 encoding of `d`, decoding `data` gives back exactly `d`,
and `byte_length` is the length of the decoded data. -/
theorem screenshot_data_round_trip {σ : Type} (DefaultActionTimeout : Int) (r : Runtime σ)
    (now : String) (dec : Decoded screenshotRequest) (s s1 : σ) (d : List Byte)
    (hshot : r.real.Screenshot (r.duration DefaultActionTimeout dec.dest.TimeoutMs)
      dec.dest.FullPage dec.dest.Format dec.dest.Quality s = (.ok d, s1)) :
    (handleScreenshot DefaultActionTimeout r now dec s).response.status = 200 ∧
    ∃ data decoded,
      (handleScreenshot DefaultActionTimeout r now dec s).response.payload.lookup "data"
        = some (.str data) ∧
      data = EncodeToString d ∧
      DecodeString data = .ok decoded ∧
      decoded = d ∧
      (handleScreenshot DefaultActionTimeout r now dec s).response.payload.lookup "byte_length"
        = some (.int decoded.length) := by
  have hout : (handleScreenshot DefaultActionTimeout r now dec s).response
      = respondJSON StatusOK
          [("data", .str (EncodeToString d)),
           ("format", .str (ToLower dec.dest.Format)),
           ("full_page", .bool dec.dest.FullPage),
           ("byte_length", .int d.length),
           ("captured_at", .str now)] := by
    unfold handleScreenshot
    simp only [hshot]
  rw [hout]
  exact ⟨rfl, EncodeToString d, d, rfl, rfl, DecodeString_EncodeToString d, rfl, rfl⟩

/-- Witness of C7: a screenshot of four bytes is reported as `iVBORw==` with
`byte_length` 4. -/
theorem screenshot_data_round_trip_witness :
    (handleScreenshot 30000000000 ⟨okBrowser, 0⟩ "2024-01-01T00:00:00Z"
      ⟨⟨false, "png", 0, 0⟩, none⟩ ()).response.status = 200 ∧
    ∃ data decoded,
      (handleScreenshot 30000000000 ⟨okBrowser, 0⟩ "2024-01-01T00:00:00Z"
        ⟨⟨false, "png", 0, 0⟩, none⟩ ()).response.payload.lookup "data" = some (.str data) ∧
      data = EncodeToString [137, 80, 78, 71] ∧
      DecodeString data = .ok decoded ∧
      decoded = [137, 80, 78, 71] ∧
      (handleScreenshot 30000000000 ⟨okBrowser, 0⟩ "2024-01-01T00:00:00Z"
        ⟨⟨false, "png", 0, 0⟩, none⟩ ()).response.payload.lookup "byte_length"
        = some (.int (decoded.length : Nat)) :=
  screenshot_data_round_trip 30000000000 ⟨okBrowser, 0⟩ "2024-01-01T00:00:00Z"
    ⟨⟨false, "png", 0, 0⟩, none⟩ () () [137, 80, 78, 71] rfl

/-! ### Decoding failures -/

/-- C8 as stated fails on `/browser/reload`: the body names a field the payload
does not have, `decodeRequest` returns an error, and the handler still calls
`Reload` and answers 200. -/
theorem reload_ignores_decode_error :
    (Request.reload ⟨⟨false, 0⟩, some ⟨"json: unknown field \"bogus\"", false⟩⟩).decodeErr
      = some ⟨"json: unknown field \"bogus\"", false⟩ ∧
    (serve 30000000000 bitsAsSeconds "2024-01-01T00:00:00Z" ⟨okBrowser, 0⟩
      (.reload ⟨⟨false, 0⟩, some ⟨"json: unknown field \"bogus\"", false⟩⟩) ()).response.status
      = 200 ∧
    (serve 30000000000 bitsAsSeconds "2024-01-01T00:00:00Z" ⟨okBrowser, 0⟩
      (.reload ⟨⟨false, 0⟩, some ⟨"json: unknown field \"bogus\"", false⟩⟩) ()).calls
      = [⟨.Reload 30000000000 false, none⟩] :=
  ⟨rfl, rfl, rfl⟩

/-- C8, amended: on every route with a body other than reload, wait-navigation
and screenshot, a failed decoding is answered 400 with the decoder's error, no
session call is made and the session stays as it was; reload, wait-navigation
and screenshot drop the decoder's error: they run as on the same payload decoded
without error, and make their one session call. -/
theorem decode_failure_rejected_where_checked {σ : Type} (DefaultActionTimeout : Int)
    (int64OfFloat64 : Float64 → Int) (now : String) (r : Runtime σ) (req : Request) (s : σ)
    (err : GoError) (herr : req.decodeErr = some err) :
    (req.route ≠ .reload ∧ req.route ≠ .waitNavigation ∧ req.route ≠ .screenshot →
      (serve DefaultActionTimeout int64OfFloat64 now r req s).response
        = errorJSON 400 err ∧
      (serve DefaultActionTimeout int64OfFloat64 now r req s).calls = [] ∧
      (serve DefaultActionTimeout int64OfFloat64 now r req s).state = s) ∧
    (req.route = .reload ∨ req.route = .waitNavigation ∨ req.route = .screenshot →
      serve DefaultActionTimeout int64OfFloat64 now r req s
        = serve DefaultActionTimeout int64OfFloat64 now r req.clearDecodeErr s ∧
      ∃ inv, (serve DefaultActionTimeout int64OfFloat64 now r req s).calls = [inv]) := by
  cases req with
  | navigate dec =>
    simp only [Request.decodeErr] at herr
    simp [Request.route, serve, handleNavigate, herr, StatusBadRequest]
  | viewport dec =>
    simp only [Request.decodeErr] at herr
    simp [Request.route, serve, handleViewport, herr, StatusBadRequest]
  | userAgent dec =>
    simp only [Request.decodeErr] at herr
    simp [Request.route, serve, handleUserAgent, herr, StatusBadRequest]
  | click dec =>
    simp only [Request.decodeErr] at herr
    simp [Request.route, serve, handleClick, herr, StatusBadRequest]
  | type dec =>
    simp only [Request.decodeErr] at herr
    simp [Request.route, serve, handleType, herr, StatusBadRequest]
  | getText dec =>
    simp only [Request.decodeErr] at herr
    simp [Request.route, serve, handleGetText, herr, StatusBadRequest]
  | getHTML dec =>
    simp only [Request.decodeErr] at herr
    simp [Request.route, serve, handleGetHTML, herr, StatusBadRequest]
  | getAttribute dec =>
    simp only [Request.decodeErr] at herr
    simp [Request.route, serve, handleGetAttribute, herr, StatusBadRequest]
  | waitSelector dec =>
    simp only [Request.decodeErr] at herr
    simp [Request.route, serve, handleWaitSelector, herr, StatusBadRequest]
  | evaluate dec =>
    simp only [Request.decodeErr] at herr
    simp [Request.route, serve, handleEvaluate, herr, StatusBadRequest]
  | profileAttach dec =>
    simp only [Request.decodeErr] at herr
    simp [Request.route, serve, handleProfileAttach, herr, StatusBadRequest]
  | back q => simp [Request.decodeErr] at herr
  | forward q => simp [Request.decodeErr] at herr
  | profileExtract q => simp [Request.decodeErr] at herr
  | reload dec =>
    simp only [Request.route, Request.clearDecodeErr, serve, handleReload]
    refine ⟨fun h => absurd rfl h.1, fun _ => ⟨trivial, ?_⟩⟩
    split <;> exact ⟨_, rfl⟩
  | waitNavigation dec =>
    simp only [Request.route, Request.clearDecodeErr, serve, handleWaitNavigation]
    refine ⟨fun h => absurd rfl h.2.1, fun _ => ⟨trivial, ?_⟩⟩
    split <;> exact ⟨_, rfl⟩
  | screenshot dec =>
    simp only [Request.route, Request.clearDecodeErr, serve, handleScreenshot]
    refine ⟨fun h => absurd rfl h.2.2, fun _ => ⟨trivial, ?_⟩⟩
    split <;> exact ⟨_, rfl⟩

/-- Witness of C8, amended: a click request whose body failed to decode, on a
session that would accept the click. -/
theorem decode_failure_rejected_where_checked_witness :
    (serve 30000000000 bitsAsSeconds "2024-01-01T00:00:00Z" ⟨okBrowser, 0⟩
      (.click ⟨⟨"#go", "", 0⟩, some ⟨"json: unknown field \"bogus\"", false⟩⟩) ()).calls = [] :=
  ((decode_failure_rejected_where_checked 30000000000 bitsAsSeconds "2024-01-01T00:00:00Z"
    ⟨okBrowser, 0⟩ (.click ⟨⟨"#go", "", 0⟩, some ⟨"json: unknown field \"bogus\"", false⟩⟩) ()
    ⟨"json: unknown field \"bogus\"", false⟩ rfl).1 (by decide)).2.1

/-! ### `/profile/extract` -/

/-- C9 at the failing input: with `timeout_ms=5000` in the query and a session
default of 0, `GetCookies` is called with the resolved 5 s and `GetStorage` with
the raw default, 0: neither positive nor the caller's timeout. -/
theorem extract_storage_timeout_unresolved :
    (Runtime.mk okBrowser 0).duration 30000000000 (queryTimeout "5000") = 5000000000 ∧
    (handleProfileExtract 30000000000 ⟨okBrowser, 0⟩ "5000" ()).calls
      = [⟨.GetCookies 5000000000, none⟩, ⟨.GetStorage 0, none⟩] :=
  ⟨rfl, rfl⟩

/-! ### Session failures -/

/-- C10 as stated fails on `/dom/click`: the request is valid, `Click` runs into
its deadline, and the answer is 400. -/
theorem click_timeout_is_client_fault :
    (serve 30000000000 bitsAsSeconds "2024-01-01T00:00:00Z" ⟨timeoutBrowser, 0⟩
      (.click ⟨⟨"#go", "", 0⟩, none⟩) ()).calls
      = [⟨.Click 30000000000 "#go" "", some deadlineExceeded⟩] ∧
    deadlineExceeded.isTimeout = true ∧
    (serve 30000000000 bitsAsSeconds "2024-01-01T00:00:00Z" ⟨timeoutBrowser, 0⟩
      (.click ⟨⟨"#go", "", 0⟩, none⟩) ()).response.status = 400 :=
  ⟨rfl, rfl, rfl⟩

theorem attach_failure_status {σ : Type} (DefaultActionTimeout : Int)
    (int64OfFloat64 : Float64 → Int) (r : Runtime σ) (dec : Decoded profileAttachRequest)
    (s : σ) (inv : Invocation) (e : GoError)
    (hinv : inv ∈ (handleProfileAttach DefaultActionTimeout int64OfFloat64 r dec s).calls)
    (herr : inv.err = some e) :
    (handleProfileAttach DefaultActionTimeout int64OfFloat64 r dec s).response.status = 400 := by
  unfold handleProfileAttach at hinv ⊢
  cases hd : dec.err with
  | some err => simp [hd] at hinv
  | none =>
    simp only [hd] at hinv ⊢
    cases hcc : convertCookies int64OfFloat64 dec.dest.Cookies [] with
    | error err => simp [hcc] at hinv
    | ok cookies =>
      simp only [hcc] at hinv ⊢
      by_cases hlen : cookies.length > 0
      · simp only [hlen, if_true] at hinv ⊢
        rcases hsc : r.real.SetCookies (r.duration DefaultActionTimeout dec.dest.Timeout)
          cookies s with ⟨res, s1⟩
        cases res with
        | some err => simp [errorJSON, respondJSON, StatusBadRequest]
        | none =>
          simp only [hsc] at hinv ⊢
          by_cases hst : dec.dest.Local.length > 0 ∨ dec.dest.Session.length > 0
          · simp only [hst, if_true] at hinv ⊢
            rcases hss : r.real.SetStorage (r.duration DefaultActionTimeout dec.dest.Timeout)
              ⟨dec.dest.Local, dec.dest.Session⟩ s1 with ⟨res2, s2⟩
            cases res2 with
            | some err => simp [errorJSON, respondJSON, StatusBadRequest]
            | none =>
              simp only [hss] at hinv
              simp at hinv
              rcases hinv with h | h <;> rw [h] at herr <;> cases herr
          · simp only [hst, if_false] at hinv
            simp at hinv
            rw [hinv] at herr
            cases herr
      · simp only [hlen, if_false] at hinv ⊢
        by_cases hst : dec.dest.Local.length > 0 ∨ dec.dest.Session.length > 0
        · simp only [hst, if_true] at hinv ⊢
          rcases hss : r.real.SetStorage (r.duration DefaultActionTimeout dec.dest.Timeout)
            ⟨dec.dest.Local, dec.dest.Session⟩ s with ⟨res2, s2⟩
          cases res2 with
          | some err => simp [errorJSON, respondJSON, StatusBadRequest]
          | none =>
            simp only [hss] at hinv
            simp at hinv
            rw [hinv] at herr
            cases herr
        · simp only [hst, if_false] at hinv
          simp at hinv

theorem extract_failure_status {σ : Type} (DefaultActionTimeout : Int) (r : Runtime σ)
    (q : String) (s : σ) (inv : Invocation) (e : GoError)
    (hinv : inv ∈ (handleProfileExtract DefaultActionTimeout r q s).calls)
    (herr : inv.err = some e) :
    (handleProfileExtract DefaultActionTimeout r q s).response.status = 400 := by
  unfold handleProfileExtract at hinv ⊢
  rcases hgc : r.real.GetCookies (r.duration DefaultActionTimeout (queryTimeout q)) s
    with ⟨res, s1⟩
  cases res with
  | error err => simp [hgc, errorJSON, respondJSON, StatusBadRequest]
  | ok cookies =>
    simp only [hgc] at hinv ⊢
    rcases hgs : r.real.GetStorage r.defaultTimeout s1 with ⟨res2, s2⟩
    cases res2 with
    | error err => simp [hgs, errorJSON, respondJSON, StatusBadRequest]
    | ok storage =>
      simp only [hgs] at hinv
      simp at hinv
      rcases hinv with h | h <;> rw [h] at herr <;> cases herr

/-- A failed call in the list of calls of an outcome fixes the status: 500 on
navigate, reload, back, forward and screenshot, 400 on the other routes. -/
theorem recorded_failure_status {σ : Type} (DefaultActionTimeout : Int)
    (int64OfFloat64 : Float64 → Int) (now : String) (r : Runtime σ) (req : Request) (s : σ)
    (inv : Invocation) (e : GoError)
    (hinv : inv ∈ (serve DefaultActionTimeout int64OfFloat64 now r req s).calls)
    (herr : inv.err = some e) :
    (req.route ∈ [Route.navigate, .reload, .back, .forward, .screenshot] →
      (serve DefaultActionTimeout int64OfFloat64 now r req s).response.status = 500) ∧
    (req.route ∉ [Route.navigate, .reload, .back, .forward, .screenshot] →
      (serve DefaultActionTimeout int64OfFloat64 now r req s).response.status = 400) := by
  cases req
  case profileAttach dec =>
    simp only [serve, Request.route] at hinv ⊢
    refine ⟨fun h => by simp at h, fun _ => ?_⟩
    exact attach_failure_status DefaultActionTimeout int64OfFloat64 r dec s inv e hinv herr
  case profileExtract q =>
    simp only [serve, Request.route] at hinv ⊢
    refine ⟨fun h => by simp at h, fun _ => ?_⟩
    exact extract_failure_status DefaultActionTimeout r q s inv e hinv herr
  all_goals
    simp only [serve, Request.route, handleNavigate, handleReload, handleBack, handleForward,
      handleViewport, handleUserAgent, handleWaitNavigation, handleScreenshot, handleClick,
      handleType, handleGetText, handleGetHTML, handleGetAttribute, handleWaitSelector,
      handleEvaluate] at hinv ⊢
    (repeat' split at hinv) <;>
    simp_all [errorJSON, respondJSON, okJSON, StatusBadRequest, StatusInternalServerError]

/-- C10, amended: when the request is valid and the session call made for it
returns an error `err`, a timeout or any other, leaving the session in `s1`, the
handler answers with the error object of `err`, records the one failed call and
leaves the session in `s1`; the status is 500 on navigate, reload, back, forward
and screenshot, and 400 on viewport, user-agent, wait-navigation, click, type,
get-text, get-html, get-attribute, wait-selector, evaluate, profile attach
(failing `SetCookies`, or `SetStorage` after it) and profile extract (failing
`GetCookies`, or `GetStorage` after it). -/
theorem session_failure_status {σ : Type} (DefaultActionTimeout : Int)
    (int64OfFloat64 : Float64 → Int) (now : String) (r : Runtime σ) (s s1 : σ)
    (err : GoError) :
    (∀ dec : Decoded navigateRequest,
      dec.err = none →
      TrimSpace dec.dest.URL ≠ "" →
      r.real.Navigate (r.duration DefaultActionTimeout dec.dest.TimeoutMs) dec.dest.URL s = (some err, s1) →
      serve DefaultActionTimeout int64OfFloat64 now r (.navigate dec) s
        = ⟨⟨500, [("error", .str err.msg)]⟩,
            [⟨.Navigate (r.duration DefaultActionTimeout dec.dest.TimeoutMs) dec.dest.URL, some err⟩], s1⟩) ∧
    (∀ dec : Decoded reloadRequest,
      r.real.Reload (r.duration DefaultActionTimeout dec.dest.TimeoutMs) dec.dest.IgnoreCache s = (some err, s1) →
      serve DefaultActionTimeout int64OfFloat64 now r (.reload dec) s
        = ⟨⟨500, [("error", .str err.msg)]⟩,
            [⟨.Reload (r.duration DefaultActionTimeout dec.dest.TimeoutMs) dec.dest.IgnoreCache, some err⟩], s1⟩) ∧
    (∀ q : String,
      r.real.Back (r.duration DefaultActionTimeout (queryTimeout q)) s = (some err, s1) →
      serve DefaultActionTimeout int64OfFloat64 now r (.back q) s
        = ⟨⟨500, [("error", .str err.msg)]⟩, [⟨.Back (r.duration DefaultActionTimeout (queryTimeout q)), some err⟩], s1⟩) ∧
    (∀ q : String,
      r.real.Forward (r.duration DefaultActionTimeout (queryTimeout q)) s = (some err, s1) →
      serve DefaultActionTimeout int64OfFloat64 now r (.forward q) s
        = ⟨⟨500, [("error", .str err.msg)]⟩, [⟨.Forward (r.duration DefaultActionTimeout (queryTimeout q)), some err⟩], s1⟩) ∧
    (∀ dec : Decoded screenshotRequest,
      r.real.Screenshot (r.duration DefaultActionTimeout dec.dest.TimeoutMs) dec.dest.FullPage dec.dest.Format dec.dest.Quality s = (.error err, s1) →
      serve DefaultActionTimeout int64OfFloat64 now r (.screenshot dec) s
        = ⟨⟨500, [("error", .str err.msg)]⟩,
            [⟨.Screenshot (r.duration DefaultActionTimeout dec.dest.TimeoutMs) dec.dest.FullPage dec.dest.Format dec.dest.Quality, some err⟩], s1⟩) ∧
    (∀ dec : Decoded viewportRequest,
      dec.err = none →
      r.real.SetViewport (r.duration DefaultActionTimeout dec.dest.TimeoutMs) dec.dest.Width dec.dest.Height dec.dest.Scale dec.dest.Mobile s = (some err, s1) →
      serve DefaultActionTimeout int64OfFloat64 now r (.viewport dec) s
        = ⟨⟨400, [("error", .str err.msg)]⟩,
            [⟨.SetViewport (r.duration DefaultActionTimeout dec.dest.TimeoutMs) dec.dest.Width dec.dest.Height dec.dest.Scale dec.dest.Mobile, some err⟩], s1⟩) ∧
    (∀ dec : Decoded userAgentRequest,
      dec.err = none →
      r.real.SetUserAgent (r.duration DefaultActionTimeout dec.dest.TimeoutMs) dec.dest.UserAgent dec.dest.AcceptLanguage dec.dest.Platform s = (some err, s1) →
      serve DefaultActionTimeout int64OfFloat64 now r (.userAgent dec) s
        = ⟨⟨400, [("error", .str err.msg)]⟩,
            [⟨.SetUserAgent (r.duration DefaultActionTimeout dec.dest.TimeoutMs) dec.dest.UserAgent dec.dest.AcceptLanguage dec.dest.Platform, some err⟩], s1⟩) ∧
    (∀ dec : Decoded waitNavigationRequest,
      r.real.WaitForNavigation (r.duration DefaultActionTimeout dec.dest.TimeoutMs) s = (some err, s1) →
      serve DefaultActionTimeout int64OfFloat64 now r (.waitNavigation dec) s
        = ⟨⟨400, [("error", .str err.msg)]⟩,
            [⟨.WaitForNavigation (r.duration DefaultActionTimeout dec.dest.TimeoutMs), some err⟩], s1⟩) ∧
    (∀ dec : Decoded clickRequest,
      dec.err = none →
      r.real.Click (r.duration DefaultActionTimeout dec.dest.TimeoutMs) dec.dest.Selector dec.dest.Button s = (some err, s1) →
      serve DefaultActionTimeout int64OfFloat64 now r (.click dec) s
        = ⟨⟨400, [("error", .str err.msg)]⟩,
            [⟨.Click (r.duration DefaultActionTimeout dec.dest.TimeoutMs) dec.dest.Selector dec.dest.Button, some err⟩], s1⟩) ∧
    (∀ dec : Decoded typeRequest,
      dec.err = none →
      r.real.TypeText (r.duration DefaultActionTimeout dec.dest.TimeoutMs) dec.dest.Selector dec.dest.Value dec.dest.Clear s = (some err, s1) →
      serve DefaultActionTimeout int64OfFloat64 now r (.type dec) s
        = ⟨⟨400, [("error", .str err.msg)]⟩,
            [⟨.TypeText (r.duration DefaultActionTimeout dec.dest.TimeoutMs) dec.dest.Selector dec.dest.Value dec.dest.Clear, some err⟩], s1⟩) ∧
    (∀ dec : Decoded textRequest,
      dec.err = none →
      r.real.GetText (r.duration DefaultActionTimeout dec.dest.TimeoutMs) dec.dest.Selector dec.dest.Visible s = (.error err, s1) →
      serve DefaultActionTimeout int64OfFloat64 now r (.getText dec) s
        = ⟨⟨400, [("error", .str err.msg)]⟩,
            [⟨.GetText (r.duration DefaultActionTimeout dec.dest.TimeoutMs) dec.dest.Selector dec.dest.Visible, some err⟩], s1⟩) ∧
    (∀ dec : Decoded htmlRequest,
      dec.err = none →
      r.real.GetHTML (r.duration DefaultActionTimeout dec.dest.TimeoutMs) dec.dest.Selector s = (.error err, s1) →
      serve DefaultActionTimeout int64OfFloat64 now r (.getHTML dec) s
        = ⟨⟨400, [("error", .str err.msg)]⟩,
            [⟨.GetHTML (r.duration DefaultActionTimeout dec.dest.TimeoutMs) dec.dest.Selector, some err⟩], s1⟩) ∧
    (∀ dec : Decoded attributeRequest,
      dec.err = none →
      r.real.GetAttribute (r.duration DefaultActionTimeout dec.dest.TimeoutMs) dec.dest.Selector dec.dest.Name s = (.error err, s1) →
      serve DefaultActionTimeout int64OfFloat64 now r (.getAttribute dec) s
        = ⟨⟨400, [("error", .str err.msg)]⟩,
            [⟨.GetAttribute (r.duration DefaultActionTimeout dec.dest.TimeoutMs) dec.dest.Selector dec.dest.Name, some err⟩], s1⟩) ∧
    (∀ dec : Decoded waitSelectorRequest,
      dec.err = none →
      r.real.WaitForSelector (r.duration DefaultActionTimeout dec.dest.TimeoutMs) dec.dest.Selector dec.dest.Visible s = (some err, s1) →
      serve DefaultActionTimeout int64OfFloat64 now r (.waitSelector dec) s
        = ⟨⟨400, [("error", .str err.msg)]⟩,
            [⟨.WaitForSelector (r.duration DefaultActionTimeout dec.dest.TimeoutMs) dec.dest.Selector dec.dest.Visible, some err⟩], s1⟩) ∧
    (∀ dec : Decoded evaluateRequest,
      dec.err = none →
      TrimSpace dec.dest.Expression ≠ "" →
      r.real.Evaluate (r.duration DefaultActionTimeout dec.dest.TimeoutMs) dec.dest.Expression dec.dest.AwaitPromise s = (.error err, s1) →
      serve DefaultActionTimeout int64OfFloat64 now r (.evaluate dec) s
        = ⟨⟨400, [("error", .str err.msg)]⟩,
            [⟨.Evaluate (r.duration DefaultActionTimeout dec.dest.TimeoutMs) dec.dest.Expression dec.dest.AwaitPromise, some err⟩], s1⟩) ∧
    (∀ (dec : Decoded profileAttachRequest) (cookies : List CookieParam),
      dec.err = none →
      convertCookies int64OfFloat64 dec.dest.Cookies [] = .ok cookies → cookies ≠ [] →
      r.real.SetCookies (r.duration DefaultActionTimeout dec.dest.Timeout) cookies s = (some err, s1) →
      serve DefaultActionTimeout int64OfFloat64 now r (.profileAttach dec) s
        = ⟨⟨400, [("error", .str err.msg)]⟩,
            [⟨.SetCookies (r.duration DefaultActionTimeout dec.dest.Timeout) cookies, some err⟩], s1⟩) ∧
    (∀ (dec : Decoded profileAttachRequest) (cookies : List CookieParam) (sMid : σ),
      dec.err = none →
      convertCookies int64OfFloat64 dec.dest.Cookies [] = .ok cookies → cookies ≠ [] →
      r.real.SetCookies (r.duration DefaultActionTimeout dec.dest.Timeout) cookies s = (none, sMid) →
      (dec.dest.Local ≠ [] ∨ dec.dest.Session ≠ []) →
      r.real.SetStorage (r.duration DefaultActionTimeout dec.dest.Timeout)
        ⟨dec.dest.Local, dec.dest.Session⟩ sMid = (some err, s1) →
      serve DefaultActionTimeout int64OfFloat64 now r (.profileAttach dec) s
        = ⟨⟨400, [("error", .str err.msg)]⟩,
            [⟨.SetCookies (r.duration DefaultActionTimeout dec.dest.Timeout) cookies, none⟩,
             ⟨.SetStorage (r.duration DefaultActionTimeout dec.dest.Timeout)
                ⟨dec.dest.Local, dec.dest.Session⟩, some err⟩], s1⟩) ∧
    (∀ dec : Decoded profileAttachRequest,
      dec.err = none →
      convertCookies int64OfFloat64 dec.dest.Cookies [] = .ok [] →
      (dec.dest.Local ≠ [] ∨ dec.dest.Session ≠ []) →
      r.real.SetStorage (r.duration DefaultActionTimeout dec.dest.Timeout)
        ⟨dec.dest.Local, dec.dest.Session⟩ s = (some err, s1) →
      serve DefaultActionTimeout int64OfFloat64 now r (.profileAttach dec) s
        = ⟨⟨400, [("error", .str err.msg)]⟩,
            [⟨.SetStorage (r.duration DefaultActionTimeout dec.dest.Timeout)
                ⟨dec.dest.Local, dec.dest.Session⟩, some err⟩], s1⟩) ∧
    (∀ q : String,
      r.real.GetCookies (r.duration DefaultActionTimeout (queryTimeout q)) s = (.error err, s1) →
      serve DefaultActionTimeout int64OfFloat64 now r (.profileExtract q) s
        = ⟨⟨400, [("error", .str err.msg)]⟩, [⟨.GetCookies (r.duration DefaultActionTimeout (queryTimeout q)), some err⟩], s1⟩) ∧
    (∀ (q : String) (cookies : List Cookie) (sMid : σ),
      r.real.GetCookies (r.duration DefaultActionTimeout (queryTimeout q)) s = (.ok cookies, sMid) →
      r.real.GetStorage r.defaultTimeout sMid = (.error err, s1) →
      serve DefaultActionTimeout int64OfFloat64 now r (.profileExtract q) s
        = ⟨⟨400, [("error", .str err.msg)]⟩,
            [⟨.GetCookies (r.duration DefaultActionTimeout (queryTimeout q)), none⟩,
             ⟨.GetStorage r.defaultTimeout, some err⟩], s1⟩) := by
  have hpos : ∀ cookies : List CookieParam, cookies ≠ [] → cookies.length > 0 :=
    fun cookies h => List.length_pos.mpr h
  have hstore : ∀ a b : List (String × String), (a ≠ [] ∨ b ≠ []) →
      (a.length > 0 ∨ b.length > 0) := by
    intro a b h
    rcases h with h | h
    · exact Or.inl (List.length_pos.mpr h)
    · exact Or.inr (List.length_pos.mpr h)
  refine ⟨?_, ?_, ?_, ?_, ?_, ?_, ?_, ?_, ?_, ?_, ?_, ?_, ?_, ?_, ?_, ?_, ?_, ?_, ?_, ?_⟩
  · intro dec hd hv hc
    simp [serve, handleNavigate, hd, hv, hc, errorJSON, respondJSON, StatusInternalServerError]
  · intro dec hc
    simp [serve, handleReload, hc, errorJSON, respondJSON, StatusInternalServerError]
  · intro q hc
    simp [serve, handleBack, hc, errorJSON, respondJSON, StatusInternalServerError]
  · intro q hc
    simp [serve, handleForward, hc, errorJSON, respondJSON, StatusInternalServerError]
  · intro dec hc
    simp [serve, handleScreenshot, hc, errorJSON, respondJSON, StatusInternalServerError]
  · intro dec hd hc
    simp [serve, handleViewport, hd, hc, errorJSON, respondJSON, StatusBadRequest]
  · intro dec hd hc
    simp [serve, handleUserAgent, hd, hc, errorJSON, respondJSON, StatusBadRequest]
  · intro dec hc
    simp [serve, handleWaitNavigation, hc, errorJSON, respondJSON, StatusBadRequest]
  · intro dec hd hc
    simp [serve, handleClick, hd, hc, errorJSON, respondJSON, StatusBadRequest]
  · intro dec hd hc
    simp [serve, handleType, hd, hc, errorJSON, respondJSON, StatusBadRequest]
  · intro dec hd hc
    simp [serve, handleGetText, hd, hc, errorJSON, respondJSON, StatusBadRequest]
  · intro dec hd hc
    simp [serve, handleGetHTML, hd, hc, errorJSON, respondJSON, StatusBadRequest]
  · intro dec hd hc
    simp [serve, handleGetAttribute, hd, hc, errorJSON, respondJSON, StatusBadRequest]
  · intro dec hd hc
    simp [serve, handleWaitSelector, hd, hc, errorJSON, respondJSON, StatusBadRequest]
  · intro dec hd hv hc
    simp [serve, handleEvaluate, hd, hv, hc, errorJSON, respondJSON, StatusBadRequest]
  · intro dec cookies hd hcc hne hc
    simp [serve, handleProfileAttach, hd, hcc, hpos cookies hne, hc, errorJSON, respondJSON,
      StatusBadRequest]
  · intro dec cookies sMid hd hcc hne hc hst hs
    simp [serve, handleProfileAttach, hd, hcc, hpos cookies hne, hc,
      hstore _ _ hst, hs, errorJSON, respondJSON, StatusBadRequest]
  · intro dec hd hcc hst hs
    simp [serve, handleProfileAttach, hd, hcc, hstore _ _ hst, hs, errorJSON, respondJSON,
      StatusBadRequest]
  · intro q hc
    simp [serve, handleProfileExtract, hc, errorJSON, respondJSON, StatusBadRequest]
  · intro q cookies sMid hc hs
    simp [serve, handleProfileExtract, hc, hs, errorJSON, respondJSON, StatusBadRequest]

/-- Witness of C10, amended: navigating on a session whose calls all run into
their deadline is answered 500 with the error of the deadline. -/
theorem session_failure_status_witness :
    serve 30000000000 bitsAsSeconds "2024-01-01T00:00:00Z" ⟨timeoutBrowser, 0⟩
      (.navigate ⟨⟨"https://example.com", 0⟩, none⟩) ()
      = ⟨⟨500, [("error", .str "context deadline exceeded")]⟩,
          [⟨.Navigate 30000000000 "https://example.com", some deadlineExceeded⟩], ()⟩ :=
  (session_failure_status 30000000000 bitsAsSeconds "2024-01-01T00:00:00Z"
    ⟨timeoutBrowser, 0⟩ () () deadlineExceeded).1
    ⟨⟨"https://example.com", 0⟩, none⟩ rfl (by decide) rfl

/-! ### `/profile/attach`: cookies, then storage -/

theorem convertCookies_ok_of_all (int64OfFloat64 : Float64 → Int)
    (reqs : List cookieParamRequest) (acc : List CookieParam)
    (hvalid : ∀ c ∈ reqs, ∃ p, convertCookieParam int64OfFloat64 c = .ok p) :
    ∃ cookies, convertCookies int64OfFloat64 reqs acc = .ok cookies ∧
      cookies.length = acc.length + reqs.length := by
  induction reqs generalizing acc with
  | nil => exact ⟨acc, rfl, rfl⟩
  | cons a t ih =>
    obtain ⟨p, hp⟩ := hvalid a (List.mem_cons_self a t)
    obtain ⟨cookies, hc, hl⟩ := ih (acc ++ [p]) (fun c hc => hvalid c (List.mem_cons_of_mem a hc))
    refine ⟨cookies, ?_, ?_⟩
    · unfold convertCookies
      simp only [hp]
      exact hc
    · rw [hl]
      simp only [List.length_append, List.length_cons, List.length_nil]
      omega

theorem errorJSON_ne_okJSON (err : GoError) : errorJSON StatusBadRequest err ≠ okJSON := by
  intro h
  have hs := congrArg Response.status h
  simp [errorJSON, respondJSON, okJSON, StatusBadRequest, StatusOK] at hs

/-- C15: on a `/profile/attach` request that decoded and whose cookies all
validate, the session calls are the cookie calls followed by the storage calls:
`SetCookies`, at most once, made exactly when the cookie list is not empty, with
all the converted cookies, on the session as the handler found it; `SetStorage`,
at most once, made exactly when a storage map is not empty and the cookie call,
if made, succeeded, on the session as the cookie call left it; both with the one
timeout `Runtime.duration` resolved; each recorded error is what the session
returned, and the session is left as the last call made left it; the response is
the ok object exactly when every call made succeeded, and otherwise the 400
error object of the call that failed. -/
theorem attach_cookies_then_storage {σ : Type} (DefaultActionTimeout : Int)
    (int64OfFloat64 : Float64 → Int) (r : Runtime σ) (dec : Decoded profileAttachRequest)
    (s : σ) (hdec : dec.err = none)
    (hvalid : ∀ c ∈ dec.dest.Cookies, ∃ p, convertCookieParam int64OfFloat64 c = .ok p) :
    ∃ (cookies : List CookieParam) (cookieCalls storageCalls : List Invocation) (sMid : σ),
      convertCookies int64OfFloat64 dec.dest.Cookies [] = .ok cookies ∧
      cookies.length = dec.dest.Cookies.length ∧
      (handleProfileAttach DefaultActionTimeout int64OfFloat64 r dec s).calls
        = cookieCalls ++ storageCalls ∧
      (∀ inv ∈ cookieCalls,
        inv.call = .SetCookies (r.duration DefaultActionTimeout dec.dest.Timeout) cookies) ∧
      (∀ inv ∈ storageCalls,
        inv.call = .SetStorage (r.duration DefaultActionTimeout dec.dest.Timeout)
          ⟨dec.dest.Local, dec.dest.Session⟩) ∧
      cookieCalls.length ≤ 1 ∧ storageCalls.length ≤ 1 ∧
      (cookieCalls ≠ [] ↔ dec.dest.Cookies ≠ []) ∧
      (storageCalls ≠ [] ↔
        (dec.dest.Local ≠ [] ∨ dec.dest.Session ≠ []) ∧ ∀ inv ∈ cookieCalls, inv.err = none) ∧
      ((handleProfileAttach DefaultActionTimeout int64OfFloat64 r dec s).response = okJSON ↔
        ∀ inv ∈ (handleProfileAttach DefaultActionTimeout int64OfFloat64 r dec s).calls,
          inv.err = none) ∧
      ((handleProfileAttach DefaultActionTimeout int64OfFloat64 r dec s).response ≠ okJSON →
        (handleProfileAttach DefaultActionTimeout int64OfFloat64 r dec s).response.status
          = 400) ∧
      (cookieCalls = [] → sMid = s) ∧
      (cookieCalls ≠ [] →
        sMid = (r.real.SetCookies (r.duration DefaultActionTimeout dec.dest.Timeout) cookies s).2 ∧
        ∀ inv ∈ cookieCalls,
          inv.err = (r.real.SetCookies (r.duration DefaultActionTimeout dec.dest.Timeout) cookies s).1) ∧
      (storageCalls = [] →
        (handleProfileAttach DefaultActionTimeout int64OfFloat64 r dec s).state = sMid) ∧
      (storageCalls ≠ [] →
        (handleProfileAttach DefaultActionTimeout int64OfFloat64 r dec s).state
          = (r.real.SetStorage (r.duration DefaultActionTimeout dec.dest.Timeout)
          ⟨dec.dest.Local, dec.dest.Session⟩ sMid).2 ∧
        ∀ inv ∈ storageCalls,
          inv.err = (r.real.SetStorage (r.duration DefaultActionTimeout dec.dest.Timeout)
          ⟨dec.dest.Local, dec.dest.Session⟩ sMid).1) ∧
      (∀ inv ∈ (handleProfileAttach DefaultActionTimeout int64OfFloat64 r dec s).calls,
        ∀ err, inv.err = some err →
          (handleProfileAttach DefaultActionTimeout int64OfFloat64 r dec s).response
            = ⟨400, [("error", .str err.msg)]⟩) := by
  obtain ⟨cookies, hcc, hlen⟩ := convertCookies_ok_of_all int64OfFloat64 dec.dest.Cookies [] hvalid
  simp only [List.length_nil, Nat.zero_add] at hlen
  have hne : cookies.length > 0 ↔ dec.dest.Cookies ≠ [] := by
    rw [hlen]
    exact List.length_pos
  have hstore : (dec.dest.Local.length > 0 ∨ dec.dest.Session.length > 0) ↔
      (dec.dest.Local ≠ [] ∨ dec.dest.Session ≠ []) := by
    rw [gt_iff_lt, gt_iff_lt, List.length_pos, List.length_pos]
  unfold handleProfileAttach
  simp only [hdec, hcc]
  by_cases hl : cookies.length > 0
  · have hreq := hne.mp hl
    simp only [hl, if_true]
    rcases hsc : r.real.SetCookies (r.duration DefaultActionTimeout dec.dest.Timeout)
      cookies s with ⟨res, s1⟩
    cases res with
    | some err =>
      refine ⟨cookies, [⟨.SetCookies (r.duration DefaultActionTimeout dec.dest.Timeout) cookies,
        some err⟩], [], s1, rfl, hlen, ?_⟩
      simp [hreq, hsc, errorJSON_ne_okJSON]
      simp [errorJSON, respondJSON, StatusBadRequest]
    | none =>
      simp only []
      by_cases hst : dec.dest.Local.length > 0 ∨ dec.dest.Session.length > 0
      · have hst2 := hstore.mp hst
        simp only [hst, if_true]
        rcases hss : r.real.SetStorage (r.duration DefaultActionTimeout dec.dest.Timeout)
          ⟨dec.dest.Local, dec.dest.Session⟩ s1 with ⟨res2, s2⟩
        cases res2 with
        | some err =>
          refine ⟨cookies,
            [⟨.SetCookies (r.duration DefaultActionTimeout dec.dest.Timeout) cookies, none⟩],
            [⟨.SetStorage (r.duration DefaultActionTimeout dec.dest.Timeout)
              ⟨dec.dest.Local, dec.dest.Session⟩, some err⟩], s1, rfl, hlen, ?_⟩
          simp [hreq, hst2, hsc, hss, errorJSON_ne_okJSON]
          simp [errorJSON, respondJSON, StatusBadRequest]
        | none =>
          refine ⟨cookies,
            [⟨.SetCookies (r.duration DefaultActionTimeout dec.dest.Timeout) cookies, none⟩],
            [⟨.SetStorage (r.duration DefaultActionTimeout dec.dest.Timeout)
              ⟨dec.dest.Local, dec.dest.Session⟩, none⟩], s1, rfl, hlen, ?_⟩
          simp [hreq, hst2, hsc, hss]
      · have hst2 : ¬ (dec.dest.Local ≠ [] ∨ dec.dest.Session ≠ []) := fun h => hst (hstore.mpr h)
        simp only [hst, if_false]
        refine ⟨cookies,
          [⟨.SetCookies (r.duration DefaultActionTimeout dec.dest.Timeout) cookies, none⟩],
          [], s1, rfl, hlen, ?_⟩
        simp [hreq, hst2, hsc]
  · have hreq : ¬ dec.dest.Cookies ≠ [] := fun h => hl (hne.mpr h)
    simp only [hl, if_false]
    by_cases hst : dec.dest.Local.length > 0 ∨ dec.dest.Session.length > 0
    · have hst2 := hstore.mp hst
      simp only [hst, if_true]
      rcases hss : r.real.SetStorage (r.duration DefaultActionTimeout dec.dest.Timeout)
        ⟨dec.dest.Local, dec.dest.Session⟩ s with ⟨res2, s2⟩
      cases res2 with
      | some err =>
        refine ⟨cookies, [],
          [⟨.SetStorage (r.duration DefaultActionTimeout dec.dest.Timeout)
            ⟨dec.dest.Local, dec.dest.Session⟩, some err⟩], s, rfl, hlen, ?_⟩
        simp [hreq, hst2, hss, errorJSON_ne_okJSON]
        simp [errorJSON, respondJSON, StatusBadRequest]
      | none =>
        refine ⟨cookies, [],
          [⟨.SetStorage (r.duration DefaultActionTimeout dec.dest.Timeout)
            ⟨dec.dest.Local, dec.dest.Session⟩, none⟩], s, rfl, hlen, ?_⟩
        simp [hreq, hst2, hss]
    · have hst2 : ¬ (dec.dest.Local ≠ [] ∨ dec.dest.Session ≠ []) := fun h => hst (hstore.mpr h)
      simp only [hst, if_false]
      refine ⟨cookies, [], [], s, rfl, hlen, ?_⟩
      simp [hreq, hst2]

/-- Witness of C15: one cookie and one local storage entry on a session that
accepts both. -/
theorem attach_cookies_then_storage_witness :
    ∃ cookieCalls storageCalls : List Invocation,
      (handleProfileAttach 30000000000 bitsAsSeconds ⟨okBrowser, 0⟩
        ⟨⟨[⟨"a", "1", "example.com", "/", none, false, false, ""⟩], [("k", "v")], [], 0⟩,
          none⟩ ()).calls = cookieCalls ++ storageCalls ∧
      cookieCalls.length ≤ 1 ∧ storageCalls.length ≤ 1 ∧ cookieCalls ≠ [] :=
  match attach_cookies_then_storage 30000000000 bitsAsSeconds ⟨okBrowser, 0⟩
    ⟨⟨[⟨"a", "1", "example.com", "/", none, false, false, ""⟩], [("k", "v")], [], 0⟩, none⟩ ()
    rfl (by intro c hc; simp at hc; subst hc; exact ⟨_, rfl⟩) with
  | ⟨_, cc, sc, _, _, _, hcalls, _, _, h1, h2, hc, _⟩ =>
    ⟨cc, sc, hcalls, h1, h2, hc.mpr (by simp)⟩

/-! ### `queryTimeout` -/

theorem ParseInt_range (value : String) (n : Int) (h : ParseInt value = some n) :
    minInt64 ≤ n ∧ n ≤ maxInt64 := by
  unfold ParseInt at h
  simp only [] at h
  split at h
  · cases h
  · split at h
    · cases h
    · rw [Option.ite_none_right_eq_some] at h
      obtain ⟨hr, hn⟩ := h
      rw [← Option.some.inj hn]
      exact hr

theorem queryTimeout_cases (value : String) :
    (value ≠ "" ∧ ∃ m : Int, ParseInt value = some m ∧ 0 < m ∧ queryTimeout value = m) ∨
    (queryTimeout value = 0 ∧ ¬ ∃ n : Int, 0 < n ∧ value ≠ "" ∧ ParseInt value = some n) := by
  unfold queryTimeout
  by_cases hv : value = ""
  · right
    simp [hv]
  · cases hp : ParseInt value with
    | none =>
      right
      simp [hv]
    | some m =>
      by_cases hm : m > 0
      · left
        exact ⟨hv, m, rfl, hm, by simp [hv, hm]⟩
      · right
        refine ⟨by simp [hv, hm], ?_⟩
        rintro ⟨n, hn, _, hsome⟩
        cases hsome
        exact hm hn

/-- C16: `queryTimeout` returns a positive `n` exactly when the parameter is
present and `strconv.ParseInt` reads it as `n`; in every other case it returns
0; the result is never negative and fits an `int64`; and a result of 0 resolves
through `Runtime.duration` to the session default when one is set, to the floor
otherwise. -/
theorem queryTimeout_spec {σ : Type} (DefaultActionTimeout : Int) (r : Runtime σ)
    (value : String) :
    (∀ n : Int, 0 < n → (queryTimeout value = n ↔ value ≠ "" ∧ ParseInt value = some n)) ∧
    ((¬ ∃ n : Int, 0 < n ∧ value ≠ "" ∧ ParseInt value = some n) → queryTimeout value = 0) ∧
    0 ≤ queryTimeout value ∧ queryTimeout value ≤ maxInt64 ∧
    (queryTimeout value = 0 →
      (0 < r.defaultTimeout →
        r.duration DefaultActionTimeout (queryTimeout value) = r.defaultTimeout) ∧
      (¬ 0 < r.defaultTimeout →
        r.duration DefaultActionTimeout (queryTimeout value) = DefaultActionTimeout)) := by
  have hdur : queryTimeout value = 0 →
      (0 < r.defaultTimeout →
        r.duration DefaultActionTimeout (queryTimeout value) = r.defaultTimeout) ∧
      (¬ 0 < r.defaultTimeout →
        r.duration DefaultActionTimeout (queryTimeout value) = DefaultActionTimeout) := by
    intro h0
    rw [h0]
    unfold Runtime.duration
    rw [if_pos (le_refl 0)]
    exact ⟨fun h => if_pos h, fun h => if_neg h⟩
  refine ⟨?_, ?_, ?_, ?_, hdur⟩
  · intro n hn
    rcases queryTimeout_cases value with ⟨hv, m, hp, hm, hq⟩ | ⟨hq, hno⟩
    · rw [hq, hp]
      constructor
      · intro h
        exact ⟨hv, by rw [h]⟩
      · rintro ⟨_, h⟩
        exact Option.some.inj h
    · rw [hq]
      constructor
      · intro h
        omega
      · rintro ⟨hv, hp⟩
        exact absurd ⟨n, hn, hv, hp⟩ hno
  · intro hno
    rcases queryTimeout_cases value with ⟨hv, m, hp, hm, _⟩ | ⟨hq, _⟩
    · exact absurd ⟨m, hm, hv, hp⟩ hno
    · exact hq
  · rcases queryTimeout_cases value with ⟨_, m, _, hm, hq⟩ | ⟨hq, _⟩ <;> omega
  · rcases queryTimeout_cases value with ⟨_, m, hp, _, hq⟩ | ⟨hq, _⟩
    · rw [hq]
      exact (ParseInt_range value m hp).2
    · rw [hq]
      decide

/-- Witness of C16: `timeout_ms=1500` is returned as it is; absent, not a number,
zero, negative and beyond the `int64` range all give 0. -/
theorem queryTimeout_spec_witness :
    queryTimeout "1500" = 1500 ∧ queryTimeout "" = 0 ∧ queryTimeout "soon" = 0 ∧
    queryTimeout "0" = 0 ∧ queryTimeout "-5" = 0 ∧ queryTimeout "9223372036854775808" = 0 :=
  ⟨((queryTimeout_spec 30000000000 ⟨okBrowser, 0⟩ "1500").1 1500 (by decide)).mpr
      ⟨by decide, by decide⟩,
    by decide, by decide, by decide, by decide, by decide⟩

/-! ### DevTools -/

/-- C11 as stated fails on a closed session: `Runtime.DevToolsInfo` still
returns `ok = true`, and the devtools handler answers 200 with the descriptor. -/
theorem devtools_ok_on_closed_session :
    Lifecycle.Closed ≠ Lifecycle.Ready ∧
    (Runtime.DevToolsInfo ⟨lifecycleBrowser, 0⟩ Lifecycle.Closed).2 = true ∧
    (handleDevTools ⟨lifecycleBrowser, 0⟩ Lifecycle.Closed).status = 200 :=
  ⟨by decide, rfl, rfl⟩

/-- C11, amended: `Runtime.DevToolsInfo` returns the controller's descriptor with
`ok = true` in every session state, and the devtools handler answers 200 with
that descriptor, never not-found. -/
theorem devtools_always_ok {σ : Type} (r : Runtime σ) (s : σ) :
    r.DevToolsInfo s = (r.real.DevToolsInfo s, true) ∧
    handleDevTools r s = respondJSON 200 (r.real.DevToolsInfo s).fields ∧
    (handleDevTools r s).status ≠ StatusNotFound := by
  refine ⟨rfl, rfl, ?_⟩
  show (200 : Nat) ≠ 404
  decide

/-! ### Routes -/

/-- C12 at the registered routes: no route of `Runtime.MountRoutes`, nor of the
whole router of the app, runs the graphql handler or ends in `/graphql`; the
handler is registered by `mountActionRoutes` only, which nothing mounts. -/
theorem graphql_not_mounted :
    (⟨"POST", "/graphql", .action .graphql⟩ : Registration) ∈ mountActionRoutes ∧
    (∀ reg ∈ MountRoutes, reg.handler ≠ .action .graphql ∧
      ∀ mount : String, reg.pattern ≠ mount ++ "/graphql") ∧
    (∀ reg ∈ appRouter, reg.handler ≠ .action .graphql) ∧
    MountRoutes.length = 17 := by
  refine ⟨by decide, ?_, by decide, by decide⟩
  intro reg hreg
  have hcases : reg ∈ MountRoutes → reg.handler ≠ .action .graphql ∧
      ¬ ("/graphql".data <:+ reg.pattern.data) := by
    revert reg
    decide
  obtain ⟨h1, h2⟩ := hcases hreg
  refine ⟨h1, ?_⟩
  intro mount hm
  apply h2
  rw [hm]
  exact ⟨mount.data, rfl⟩

/-! ### The event bus -/

theorem subscribeAll_subscribers (sizes : List Nat) (bus : EventBus) :
    (subscribeAll sizes bus).subscribers
      = bus.subscribers ++ sizes.map (fun size => (⟨size, [], false⟩ : Subscriber)) := by
  induction sizes generalizing bus with
  | nil => simp [subscribeAll]
  | cons size rest ih =>
    simp only [subscribeAll, SubscribeLogs, EventBus.Subscribe, ih, List.map_cons,
      List.append_assoc, List.singleton_append]

theorem closeAt_getElem? (id : Nat) (l : List Subscriber) (i : Nat) :
    (closeAt id l)[i]?
      = (l[i]?).map (fun sub => if i = id then { sub with closed := true } else sub) := by
  induction l generalizing id i with
  | nil => simp [closeAt]
  | cons sub rest ih =>
    cases id with
    | zero =>
      cases i with
      | zero => simp [closeAt]
      | succ j => simp [closeAt]
    | succ k =>
      cases i with
      | zero => simp [closeAt]
      | succ j => simp [closeAt, ih]

theorem unsubscribeAll_getElem? (ids : List Nat) (bus : EventBus) (i : Nat) :
    (unsubscribeAll ids bus).subscribers[i]?
      = (bus.subscribers[i]?).map
          (fun sub => if i ∈ ids then { sub with closed := true } else sub) := by
  induction ids generalizing bus with
  | nil => simp [unsubscribeAll]
  | cons id rest ih =>
    simp only [unsubscribeAll, ih, EventBus.Unsubscribe, closeAt_getElem?, Option.map_map]
    cases bus.subscribers[i]? with
    | none => rfl
    | some sub =>
      simp only [Option.map_some', Function.comp, List.mem_cons]
      by_cases h1 : i = id <;> by_cases h2 : i ∈ rest <;> simp [h1, h2]

theorem closeAt_idem (id : Nat) (l : List Subscriber) :
    closeAt id (closeAt id l) = closeAt id l := by
  induction l generalizing id with
  | nil => cases id <;> rfl
  | cons sub rest ih =>
    cases id with
    | zero => rfl
    | succ k => simp [closeAt, ih]

theorem publish_received (bus : EventBus) (event : LogEvent) (i : Nat) (sub : Subscriber)
    (h : bus.subscribers[i]? = some sub) :
    (bus.Publish event).received i
      = if sub.closed = false ∧ sub.buffer.length < sub.capacity then sub.buffer ++ [event]
        else sub.buffer := by
  unfold EventBus.received EventBus.Publish
  simp only [List.getElem?_map, h, Option.map_some', Subscriber.deliver]
  cases hc : sub.closed <;> by_cases hl : sub.buffer.length < sub.capacity <;> simp [hl]

/-- C14: after any run of `SubscribeLogs` calls on a fresh bus, any calls of
unsubscribe functions and then one publish, a subscriber that did not
unsubscribe and has room in its buffer holds exactly the one event, a subscriber
without room holds nothing, and a subscriber that unsubscribed holds nothing; in
any state of the bus a publish appends the event once to each open subscriber
with room and leaves every other subscriber as it was, whatever the state of the
others, and always returns; and calling an unsubscribe function a second time
changes nothing. -/
theorem publish_after_subscribes (event : LogEvent) :
    (∀ (sizes ids : List Nat) (i size : Nat), sizes[i]? = some size →
      ((unsubscribeAll ids (subscribeAll sizes EventBus.empty)).Publish event).received i
        = if i ∈ ids then [] else if 0 < size then [event] else []) ∧
    (∀ (bus : EventBus) (i : Nat) (sub : Subscriber), bus.subscribers[i]? = some sub →
      (bus.Publish event).received i
        = if sub.closed = false ∧ sub.buffer.length < sub.capacity then sub.buffer ++ [event]
          else sub.buffer) ∧
    (∀ bus : EventBus, (bus.Publish event).subscribers.length = bus.subscribers.length) ∧
    (∀ (bus : EventBus) (id : Nat), (bus.Unsubscribe id).Unsubscribe id = bus.Unsubscribe id) := by
  refine ⟨?_, fun bus i sub h => publish_received bus event i sub h, ?_, ?_⟩
  · intro sizes ids i size hsize
    have hsub : (unsubscribeAll ids (subscribeAll sizes EventBus.empty)).subscribers[i]?
        = some (if i ∈ ids then ⟨size, [], true⟩ else ⟨size, [], false⟩) := by
      rw [unsubscribeAll_getElem?, subscribeAll_subscribers]
      simp only [EventBus.empty, List.nil_append, List.getElem?_map, hsize, Option.map_some']
    rw [publish_received _ event i _ hsub]
    by_cases hi : i ∈ ids
    · simp [hi]
    · by_cases hs : 0 < size <;> simp [hi, hs]
  · intro bus
    simp [EventBus.Publish]
  · intro bus id
    simp [EventBus.Unsubscribe, closeAt_idem]

/-- Witness of C14: three subscribers with buffers of 128, 0 and 4, the third
unsubscribes twice, then one event is published. -/
theorem publish_after_subscribes_witness :
    ((unsubscribeAll [2, 2] (subscribeAll [128, 0, 4] EventBus.empty)).Publish
        ⟨"2024-01-01T00:00:00Z", "info", "navigation started"⟩).received 0
      = [⟨"2024-01-01T00:00:00Z", "info", "navigation started"⟩] ∧
    ((unsubscribeAll [2, 2] (subscribeAll [128, 0, 4] EventBus.empty)).Publish
        ⟨"2024-01-01T00:00:00Z", "info", "navigation started"⟩).received 1 = [] ∧
    ((unsubscribeAll [2, 2] (subscribeAll [128, 0, 4] EventBus.empty)).Publish
        ⟨"2024-01-01T00:00:00Z", "info", "navigation started"⟩).received 2 = [] :=
  ⟨(publish_after_subscribes ⟨"2024-01-01T00:00:00Z", "info", "navigation started"⟩).1
      [128, 0, 4] [2, 2] 0 128 rfl,
    by decide, by decide⟩

/-! ### Configuration -/

/-- `envIntOrDefault` returns a positive number whenever the fallback is positive. -/
theorem envIntOrDefault_pos (getenv : String → String) (key : String) (fallback : Int)
    (hpos : 0 < fallback) : 0 < envIntOrDefault getenv key fallback := by
  unfold envIntOrDefault
  split
  · split
    · split
      · assumption
      · exact hpos
    · exact hpos
  · exact hpos

/-- The port `loadConfig` yields is positive in every environment, given a
positive built-in port. -/
theorem loadConfig_port_pos (fracNanos : Nat → Nat → Nat → Nat) (getenv : String → String)
    (DefaultRemoteAddr : String) (DefaultRemotePort DefaultActionTimeout : Int)
    (hport : 0 < DefaultRemotePort) :
    0 < (loadConfig fracNanos getenv DefaultRemoteAddr DefaultRemotePort
      DefaultActionTimeout).RemoteDebuggingPort :=
  envIntOrDefault_pos getenv defaultRemotePortKey DefaultRemotePort hport

/-- C17 at the failing inputs: with `volant_AGENT_DEFAULT_TIMEOUT` set to `-5`
the loaded default timeout is -5 ms, with `0` it is 0, and with `-5s` it is
-5 s, whatever the built-in defaults are. -/
theorem loadConfig_timeout_not_positive (fracNanos : Nat → Nat → Nat → Nat)
    (DefaultRemoteAddr : String) (DefaultRemotePort DefaultActionTimeout : Int) :
    (loadConfig fracNanos (timeoutEnv "-5") DefaultRemoteAddr DefaultRemotePort
      DefaultActionTimeout).DefaultTimeout = -5000000 ∧
    (loadConfig fracNanos (timeoutEnv "0") DefaultRemoteAddr DefaultRemotePort
      DefaultActionTimeout).DefaultTimeout = 0 ∧
    (loadConfig fracNanos (timeoutEnv "-5s") DefaultRemoteAddr DefaultRemotePort
      DefaultActionTimeout).DefaultTimeout = -5000000000 :=
  ⟨rfl, rfl, rfl⟩

/-! ### `time.ParseDuration` always has rounds to spare -/

theorem leadingInt_length (s : List Char) (x v : Nat) (rest : List Char)
    (h : leadingInt s x = some (v, rest)) : rest.length ≤ s.length := by
  induction s generalizing x with
  | nil =>
    simp only [leadingInt, Option.some.injEq, Prod.mk.injEq] at h
    rw [← h.2]
  | cons c cs ih =>
    unfold leadingInt at h
    split at h
    · simp only [Option.some.injEq, Prod.mk.injEq] at h
      rw [← h.2]
    · split at h
      · cases h
      · split at h
        · cases h
        · have := ih _ h
          simp only [List.length_cons]
          omega

theorem leadingFraction_length (s : List Char) (x scale : Nat) (overflow : Bool) :
    (leadingFraction s x scale overflow).2.2.length ≤ s.length := by
  induction s generalizing x scale overflow with
  | nil => simp [leadingFraction]
  | cons c cs ih =>
    unfold leadingFraction
    split
    · exact le_refl _
    · split
      · exact Nat.le_succ_of_le (ih _ _ _)
      · split
        · exact Nat.le_succ_of_le (ih _ _ _)
        · split
          · exact Nat.le_succ_of_le (ih _ _ _)
          · exact Nat.le_succ_of_le (ih _ _ _)

theorem dropWhile_length_lt {α : Type} (p : α → Bool) (l : List α)
    (h : l.takeWhile p ≠ []) : (l.dropWhile p).length < l.length := by
  have hsum := congrArg List.length (List.takeWhile_append_dropWhile p l)
  rw [List.length_append] at hsum
  have hpos : 0 < (l.takeWhile p).length := List.length_pos.mpr h
  omega

/-- A round of the loop that succeeds leaves less input than it was given. -/
theorem parseGroup_shorter (fracNanos : Nat → Nat → Nat → Nat) (s : List Char) (d sum : Nat)
    (rest : List Char) (h : parseGroup fracNanos s d = some (sum, rest)) :
    rest.length < s.length := by
  unfold parseGroup at h
  split at h
  · cases h
  · rename_i c0 tl
    split at h
    · cases h
    · split at h
      · cases h
      · rename_i v s1 hint
        have hs1 := leadingInt_length _ _ _ _ hint
        simp only [] at h
        split at h
        · cases h
        · split at h
          · cases h
          · rename_i hu
            split at h
            · cases h
            · split at h
              · cases h
              · split at h
                · cases h
                · split at h
                  · cases h
                  · simp only [Option.some.injEq, Prod.mk.injEq] at h
                    rw [← h.2]
                    have hdrop := dropWhile_length_lt _ _ hu
                    refine lt_of_lt_of_le hdrop ?_
                    refine le_trans ?_ hs1
                    split
                    · exact le_refl _
                    · split
                      · exact Nat.le_succ_of_le (leadingFraction_length _ _ _ _)
                      · exact le_refl _

/-- The bound on the rounds is never reached: with more rounds than the input
has characters, one more round allowed changes nothing. -/
theorem parseGroups_fuel (fracNanos : Nat → Nat → Nat → Nat) (fuel : Nat) (s : List Char)
    (d : Nat) (h : s.length < fuel) :
    parseGroups fracNanos (fuel + 1) s d = parseGroups fracNanos fuel s d := by
  induction fuel generalizing s d with
  | zero => omega
  | succ n ih =>
    rw [parseGroups, parseGroups]
    split
    · rfl
    · cases hg : parseGroup fracNanos s d with
      | none => rfl
      | some res =>
        obtain ⟨sum, rest⟩ := res
        have hlt := parseGroup_shorter fracNanos s d sum rest hg
        exact ih rest sum (by omega)

end BrowserPlugin
